import Mathlib

/-!
Verification development for the mock-meraki-api synthetic topology
generation engine (seed_data/generators and seed_data/topologies).

The Python source is shallowly embedded as executable Lean definitions:

* Python strings are modelled as lists of characters (abbreviation Str),
  with the string operations the source uses (split, rsplit, upper, lower,
  substring test, replace, slicing) implemented as recursive functions that
  mirror Python semantics.
* The process-wide pseudo-random stream at a given seed is modelled as an
  abstract stream of naturals (Rng, a list consumed from the front, with 0
  drawn once the list is exhausted).  Each primitive of the random module
  consumes draws in source order: randint lo hi maps a draw v to
  lo + v mod (hi+1-lo); random.choice maps a draw to an index modulo the
  list length; random.choices with k=n consumes n draws; random.random()
  is modelled with millesimal resolution (a draw modulo 1000, so that the
  source's comparisons against 0.3, 0.4, 0.5, 0.7, 0.8, 0.9, 0.95 become
  integer comparisons against 300 .. 950); random.uniform(-0.01, 0.01) is
  modelled with a resolution of 0.0001 as a draw mapped into [-100, 100]
  in units of 10^-4 degrees.  No claim in scope depends on the numeric
  distribution, only on data flow, so this abstraction is faithful.
* datetime.utcnow() is modelled as an explicit parameter now : Nat (Unix
  seconds); timestamps stored by the source as stringified integers are
  stored as their decimal strings, and timestamps stored as ISO datetime
  strings are stored as the underlying epoch seconds (the rendering is
  injective, and no claim inspects the ISO text).
* Latitude/longitude floats are stored as integers in units of 10^-4
  degrees (all the table constants have at most 4 decimals, so this is
  exact).
* Python runtime errors are modelled with Except PyErr; the only failure
  points of this code are int() on a non-numeric string inside
  generate_vlan, and tuple unpacking of a 3-tuple into 2 targets in the
  mesh and multi-org assemblers (unpack2of3 below).
* Dicts keyed by device serial are modelled as association lists in
  insertion order.

Field names follow the source; the config key name_prefix is rendered as
name_pfx.
-/

set_option autoImplicit false

namespace MockMeraki

/-! ### Python-style strings -/

abbrev Str : Type := List Char

/-- Convert a Lean string literal to the character-list representation. -/
def strL (s : String) : Str := s.toList

/-- Decimal digit character (for d below 10). -/
def digitChar (d : Nat) : Char := Char.ofNat (48 + d)

/-- Fuel-driven decimal rendering (structural recursion so that it
reduces definitionally; the fuel never runs out when it exceeds n). -/
def natStrAux : Nat → Nat → Str
  | 0, _ => []
  | fuel + 1, n =>
    if n < 10 then [digitChar n]
    else natStrAux fuel (n / 10) ++ [digitChar (n % 10)]

/-- Decimal rendering of a natural number, as Python str(n). -/
def natStr (n : Nat) : Str := natStrAux (n + 1) n

def pad2 (n : Nat) : Str :=
  if n < 10 then '0' :: natStr n else natStr n

/-- Three-digit zero-padded decimal, as Python f-string 03d. -/
def pad3 (n : Nat) : Str :=
  if n < 10 then '0' :: '0' :: natStr n
  else if n < 100 then '0' :: natStr n
  else natStr n

/-- Lowercase hex digit character (for d below 16). -/
def hexChar (d : Nat) : Char :=
  if d < 10 then digitChar d else Char.ofNat (87 + d)

/-- Two-digit lowercase hex of a byte, as Python f-string 02x. -/
def hex2 (v : Nat) : Str := [hexChar (v / 16 % 16), hexChar (v % 16)]

/-- Python s.split(c): split a string at every occurrence of c. -/
def pySplitC (c : Char) : Str → List Str
  | [] => [[]]
  | x :: xs =>
    let r := pySplitC c xs
    if x = c then [] :: r
    else (x :: r.headD []) :: r.tail

/-- Python c in s for a single character. -/
def containsC (s : Str) (c : Char) : Bool := s.any (fun x => x = c)

/-- Python s.rsplit(c, 1)[0]: everything before the last occurrence of c,
or s itself when c does not occur. -/
def pyRSplitHead (c : Char) (s : Str) : Str :=
  if containsC s c then
    ((s.reverse.dropWhile (fun x => x != c)).drop 1).reverse
  else s

/-- Python needle in hay substring test. -/
def subIn (needle : Str) : Str → Bool
  | [] => needle.isEmpty
  | x :: xs => needle.isPrefixOf (x :: xs) || subIn needle xs

/-- Python s.upper(). -/
def toUpperS (s : Str) : Str := s.map Char.toUpper

/-- Python s.lower(). -/
def toLowerS (s : Str) : Str := s.map Char.toLower

/-- Python int(s) for non-negative decimal strings: some value on a
non-empty all-digit string, none (a ValueError) otherwise. -/
def parseNat (s : Str) : Option Nat :=
  if s.isEmpty then none
  else if s.all (fun ch => ch.isDigit) then
    some (s.foldl (fun acc ch => acc * 10 + (ch.toNat - 48)) 0)
  else none

/-- Assoc-list lookup, as Python dict access on a literal dict. -/
def lookupAssoc {α : Type} (m : List (Str × α)) (k : Str) : Option α :=
  (m.find? (fun e => e.1 == k)).map (fun e => e.2)

/-! ### The pseudo-random stream -/

/-- Abstract pseudo-random stream: the sequence of raw draws produced by
the process-wide generator after seeding.  Exhausted streams draw 0. -/
abbrev Rng : Type := List Nat

/-- Consume one raw draw. -/
def drawN (r : Rng) : Nat × Rng := (r.headD 0, r.tail)

/-- random.randint(lo, hi): inclusive bounds. -/
def randint (lo hi : Nat) (r : Rng) : Nat × Rng :=
  let (v, r) := drawN r
  (lo + v % (hi + 1 - lo), r)

/-- random.random() with millesimal resolution: a value in 0..999 standing
for the unit interval. -/
def randMil (r : Rng) : Nat × Rng :=
  let (v, r) := drawN r
  (v % 1000, r)

/-- random.choice(l) (with a default for the statically-unreachable empty
case, where Python would raise IndexError). -/
def choiceD {α : Type} (l : List α) (dflt : α) (r : Rng) : α × Rng :=
  let (v, r) := drawN r
  (l.getD (v % l.length) dflt, r)

/-- random.choices(l, k=n): n independent draws with replacement. -/
def choicesK {α : Type} (l : List α) (dflt : α) : Nat → Rng → List α × Rng
  | 0, r => ([], r)
  | n + 1, r =>
    let (x, r) := choiceD l dflt r
    let (xs, r) := choicesK l dflt n r
    (x :: xs, r)

/-- random.uniform(-0.01, 0.01) in units of 10^-4 degrees. -/
def uniformJitter (r : Rng) : Int × Rng :=
  let (v, r) := drawN r
  ((v % 201 : Nat) - (100 : Int), r)

/-- Python runtime errors reachable from this code. -/
inductive PyErr : Type
  | valueError (msg : Str)
  deriving DecidableEq, Repr

/-- Python iterable unpacking of a 3-tuple into two targets:
a, b = (x, y, z) raises ValueError: too many values to unpack. -/
def unpack2of3 {α β γ : Type} (_t : α × β × γ) : Except PyErr (α × β) :=
  .error (.valueError (strL "too many values to unpack (expected 2)"))

/-- True on Except.ok, used to state that a call raises. -/
def exceptIsOk {ε α : Type} : Except ε α → Bool
  | .ok _ => true
  | .error _ => false

/-! ### Data model

Records mirror the dicts built by the generators.  Keys that the source
only ever sets on some records (wan1Ip, wan2Ip, imei, components,
localStatusPages) are Option fields, none standing for an absent key.
ISO-formatted timestamp strings are stored as their underlying epoch
seconds; stringified integer timestamps are stored as decimal strings. -/

structure Usage where
  sent : Nat
  recv : Nat
  total : Nat
  deriving DecidableEq, Repr

structure Client where
  id : Str
  mac : Str
  ip : Str
  ip6 : Option Str
  ip6Local : Option Str
  description : Str
  firstSeen : Str
  lastSeen : Str
  manufacturer : Str
  os : Str
  deviceTypePrediction : Str
  user : Option Str
  vlan : Str
  namedVlan : Str
  switchport : Option Str
  ssid : Option Str
  status : Str
  notes : Option Str
  smInstalled : Bool
  recentDeviceSerial : Option Str
  recentDeviceName : Option Str
  recentDeviceMac : Option Str
  recentDeviceConnection : Str
  wirelessCapabilities : Option Str
  adaptivePolicyGroup : Option Str
  groupPolicy8021x : Option Str
  pskGroup : Option Str
  usage : Usage
  deriving DecidableEq, Repr

/-- Network-level client: the full field set of the base client plus the
internal _network_id seeding field. -/
structure NetClient where
  base : Client
  network_id : Str
  deriving DecidableEq, Repr

structure DevUsage where
  sent : Nat
  recv : Nat
  deriving DecidableEq, Repr

/-- Device-level client: the reduced field set of the device clients
endpoint. -/
structure DevClient where
  id : Str
  mac : Str
  description : Str
  mdnsName : Str
  dhcpHostname : Str
  user : Option Str
  ip : Str
  vlan : Str
  namedVlan : Str
  switchport : Option Str
  adaptivePolicyGroup : Option Str
  usage : DevUsage
  deriving DecidableEq, Repr

structure Manufacturer where
  name : Str
  oui : Str
  weight : Nat
  os : List Str
  deriving DecidableEq, Repr

/-- The hostname-type lambdas of prefixes_by_oui are either a constant
string or a template that appends a comma and the OS string. -/
inductive TypeGen : Type
  | withOs (t : Str)
  | const (t : Str)
  deriving DecidableEq, Repr

def applyTypeGen : TypeGen → Str → Str
  | .withOs t, o => t ++ strL ", " ++ o
  | .const t, _ => t

structure Device where
  serial : Str
  name : Str
  mac : Str
  networkId : Str
  organizationId : Str
  model : Str
  productType : Str
  firmware : Str
  lanIp : Str
  tags : List Str
  lat : Int
  lng : Int
  address : Str
  notes : Option Str
  url : Str
  configurationUpdatedAt : Nat
  details : List (Str × Str)
  wan1Ip : Option Str
  wan2Ip : Option Str
  imei : Option Nat
  deriving DecidableEq, Repr

/-- Device availability record; the nested network id object is
flattened to networkId. -/
structure DeviceAvailability where
  serial : Str
  name : Str
  mac : Str
  networkId : Str
  productType : Str
  status : Str
  tags : List Str
  deriving DecidableEq, Repr

structure PowerSupply where
  slot : Nat
  serial : Str
  model : Str
  status : Str
  poeUnit : Str
  poeMaximum : Nat
  deriving DecidableEq, Repr

structure DeviceStatus where
  name : Str
  serial : Str
  mac : Str
  publicIp : Str
  networkId : Str
  status : Str
  lastReportedAtTs : Nat
  lastReportedAtMicro : Nat
  lanIp : Str
  gateway : Str
  ipType : Str
  primaryDns : Str
  secondaryDns : Str
  productType : Str
  model : Str
  tags : List Str
  components : Option (List PowerSupply)
  deriving DecidableEq, Repr

structure Vlan where
  id : Str
  interfaceId : Str
  networkId : Str
  name : Str
  applianceIp : Str
  subnet : Str
  fixedIpAssignments : List (Str × Str)
  reservedIpRanges : List Str
  dnsNameservers : Str
  dhcpHandling : Str
  dhcpLeaseTime : Str
  dhcpBootOptionsEnabled : Bool
  dhcpOptions : List Str
  vpnNatSubnet : Str
  mandatoryDhcpEnabled : Bool
  ipv6Enabled : Bool
  dhcpBootFilename : Option Str
  dhcpBootNextServer : Option Str
  dhcpRelayServerIps : List Str
  groupPolicyId : Option Str
  templateVlanType : Str
  cidr : Str
  mask : Nat
  deriving DecidableEq, Repr

/-- Organization record with the nested api/licensing/cloud/management
objects flattened to scalar fields. -/
structure Org where
  id : Str
  name : Str
  url : Str
  apiEnabled : Bool
  licensingModel : Str
  cloudRegionName : Str
  cloudRegionHostName : Str
  customerNumber : Str
  deriving DecidableEq, Repr

structure Network where
  id : Str
  organizationId : Str
  name : Str
  productTypes : List Str
  timeZone : Str
  tags : List Str
  enrollmentString : Option Str
  url : Str
  notes : Option Str
  details : Option Str
  isBoundToConfigTemplate : Bool
  isVirtual : Bool
  deriving DecidableEq, Repr

structure VlanNameEntry where
  name : Str
  adaptivePolicyGroup : Option Str
  deriving DecidableEq, Repr

structure VlanProfile where
  iname : Str
  name : Str
  isDefault : Bool
  vlanNames : List VlanNameEntry
  vlanGroups : List Str
  deriving DecidableEq, Repr

structure HubRef where
  hubId : Str
  useDefaultRoute : Bool
  deriving DecidableEq, Repr

structure VpnSubnet where
  localSubnet : Str
  useVpn : Bool
  natEnabled : Bool
  deriving DecidableEq, Repr

structure VpnConfig where
  mode : Str
  hubs : List HubRef
  subnets : List VpnSubnet
  localStatusPagesEnabled : Option Bool
  deriving DecidableEq, Repr

structure CellPoolSubnet where
  serial : Option Str
  name : Str
  applianceIp : Str
  subnet : Str
  deriving DecidableEq, Repr

structure CellPool where
  deploymentMode : Str
  cidr : Str
  mask : Nat
  subnets : List CellPoolSubnet
  deriving DecidableEq, Repr

structure Location where
  city : Str
  state : Str
  lat : Int
  lng : Int
  tz : Str
  deriving DecidableEq, Repr

/-! ### Client generator (seed_data/generators/client_generator.py) -/

namespace ClientGen

/-- The CLIENT_MANUFACTURERS table. -/
def CLIENT_MANUFACTURERS : List Manufacturer := [
  {name := strL "Apple", oui := strL "3C:E0:72", weight := 15,
   os := [strL "iOS 17", strL "iOS 16", strL "iOS 15"]},
  {name := strL "Apple", oui := strL "A4:83:E7", weight := 10,
   os := [strL "macOS Sonoma", strL "macOS Ventura", strL "macOS Monterey"]},
  {name := strL "Samsung", oui := strL "84:25:DB", weight := 12,
   os := [strL "Android 14", strL "Android 13", strL "Android 12"]},
  {name := strL "Dell", oui := strL "F8:B1:56", weight := 12,
   os := [strL "Windows 11", strL "Windows 10"]},
  {name := strL "HP", oui := strL "10:B6:76", weight := 10,
   os := [strL "Windows 11", strL "Windows 10"]},
  {name := strL "Lenovo", oui := strL "28:D2:44", weight := 10,
   os := [strL "Windows 11", strL "Windows 10", strL "Chrome OS"]},
  {name := strL "Microsoft", oui := strL "28:18:78", weight := 5,
   os := [strL "Windows 11", strL "Windows 10"]},
  {name := strL "Intel", oui := strL "A4:34:D9", weight := 3,
   os := [strL "Windows 11", strL "Windows 10", strL "Linux"]},
  {name := strL "Google", oui := strL "F4:F5:D8", weight := 5,
   os := [strL "Android 14", strL "Chrome OS"]},
  {name := strL "HP", oui := strL "C8:B5:AD", weight := 3, os := [strL "Embedded"]},
  {name := strL "Epson", oui := strL "00:26:AB", weight := 2, os := [strL "Embedded"]},
  {name := strL "Canon", oui := strL "00:1E:8F", weight := 2, os := [strL "Embedded"]},
  {name := strL "Samsung", oui := strL "8C:79:F5", weight := 2, os := [strL "Tizen OS"]},
  {name := strL "LG", oui := strL "A8:23:FE", weight := 2, os := [strL "webOS"]},
  {name := strL "Cisco", oui := strL "00:1B:0D", weight := 2, os := [strL "Cisco IP Phone"]},
  {name := strL "Zebra", oui := strL "00:A0:F8", weight := 3,
   os := [strL "Android 11", strL "Android 10"]},
  {name := strL "Honeywell", oui := strL "00:40:84", weight := 2, os := [strL "Android 10"]},
  {name := strL "Axis", oui := strL "00:40:8C", weight := 1, os := [strL "Embedded"]},
  {name := strL "Texas Instruments", oui := strL "00:17:E5", weight := 1,
   os := [strL "Embedded"]},
  {name := strL "GE", oui := strL "00:00:9A", weight := 1, os := [strL "Embedded"]},
  {name := strL "Philips", oui := strL "00:1E:C0", weight := 1, os := [strL "Embedded"]}]

/-- The DEVICE_TYPE_BY_KEY table mapping device type keys to OUIs. -/
def DEVICE_TYPE_BY_KEY : List (Str × Str) := [
  (strL "Apple Mobile", strL "3C:E0:72"),
  (strL "Apple Mac", strL "A4:83:E7"),
  (strL "Samsung Mobile", strL "84:25:DB"),
  (strL "Samsung TV", strL "8C:79:F5"),
  (strL "HP Laptop", strL "10:B6:76"),
  (strL "HP Printer", strL "C8:B5:AD"),
  (strL "Dell", strL "F8:B1:56"),
  (strL "Lenovo", strL "28:D2:44"),
  (strL "Microsoft", strL "28:18:78"),
  (strL "Intel", strL "A4:34:D9"),
  (strL "Google", strL "F4:F5:D8"),
  (strL "Epson", strL "00:26:AB"),
  (strL "Canon", strL "00:1E:8F"),
  (strL "LG TV", strL "A8:23:FE"),
  (strL "Cisco", strL "00:1B:0D"),
  (strL "Zebra", strL "00:A0:F8"),
  (strL "Honeywell", strL "00:40:84"),
  (strL "Axis", strL "00:40:8C"),
  (strL "Texas Instruments", strL "00:17:E5"),
  (strL "GE Healthcare", strL "00:00:9A"),
  (strL "Philips Medical", strL "00:1E:C0")]

/-- MANUFACTURER_BY_OUI reverse lookup (all OUIs in the table are
distinct, so dict comprehension order is irrelevant). -/
def manufacturerByOui (oui : Str) : Option Manufacturer :=
  CLIENT_MANUFACTURERS.find? (fun m => m.oui == oui)

/-- Weighted manufacturer list built in the constructor: each entry
repeated weight times. -/
def manufacturersWeighted : List Manufacturer :=
  (CLIENT_MANUFACTURERS.map (fun m => List.replicate m.weight m)).flatten

def dfltManufacturer : Manufacturer :=
  {name := [], oui := [], weight := 0, os := []}

/-- The prefixes_by_oui table of _generate_hostname_and_type. -/
def prefixes_by_oui : List (Str × List (Str × TypeGen)) := [
  (strL "3C:E0:72", [(strL "IPHONE", .withOs (strL "iPhone")),
                     (strL "IPAD", .withOs (strL "iPad"))]),
  (strL "A4:83:E7", [(strL "MACBOOK", .withOs (strL "MacBook Pro")),
                     (strL "IMAC", .withOs (strL "iMac"))]),
  (strL "84:25:DB", [(strL "GALAXY", .withOs (strL "Samsung Galaxy")),
                     (strL "SAMSUNG-TAB", .withOs (strL "Samsung Tablet"))]),
  (strL "8C:79:F5", [(strL "SAMSUNG-TV", .withOs (strL "Samsung Smart TV")),
                     (strL "SMARTTV", .withOs (strL "Samsung Smart TV"))]),
  (strL "F8:B1:56", [(strL "DELL-LAPTOP", .withOs (strL "Dell Laptop")),
                     (strL "DELL-DESKTOP", .withOs (strL "Dell Desktop"))]),
  (strL "10:B6:76", [(strL "HP-LAPTOP", .withOs (strL "HP Laptop")),
                     (strL "HP-DESKTOP", .withOs (strL "HP Desktop"))]),
  (strL "C8:B5:AD", [(strL "HP-PRINTER", .const (strL "HP LaserJet Printer")),
                     (strL "HP-MFP", .const (strL "HP OfficeJet MFP"))]),
  (strL "28:D2:44", [(strL "LENOVO", .withOs (strL "Lenovo ThinkPad")),
                     (strL "THINKPAD", .withOs (strL "Lenovo ThinkPad"))]),
  (strL "28:18:78", [(strL "SURFACE", .withOs (strL "Microsoft Surface")),
                     (strL "DEVICE", .withOs (strL "Windows PC"))]),
  (strL "A4:34:D9", [(strL "DEVICE", .withOs (strL "Intel NUC"))]),
  (strL "F4:F5:D8", [(strL "PIXEL", .withOs (strL "Google Pixel")),
                     (strL "CHROMEBOOK", .withOs (strL "Chromebook"))]),
  (strL "00:26:AB", [(strL "EPSON-PRINTER", .const (strL "Epson Printer"))]),
  (strL "00:1E:8F", [(strL "CANON-PRINTER", .const (strL "Canon Printer"))]),
  (strL "A8:23:FE", [(strL "LG-TV", .withOs (strL "LG Smart TV")),
                     (strL "LGTV", .withOs (strL "LG Smart TV"))]),
  (strL "00:1B:0D", [(strL "VOIP", .const (strL "Cisco IP Phone")),
                     (strL "CISCO-PHONE", .const (strL "Cisco IP Phone 8845"))]),
  (strL "00:A0:F8", [(strL "ZEBRA-SCANNER", .const (strL "Zebra Scanner")),
                     (strL "SCANNER", .const (strL "Zebra TC52"))]),
  (strL "00:40:84", [(strL "HON-SCANNER", .const (strL "Honeywell Scanner")),
                     (strL "SCANNER", .const (strL "Honeywell CT60"))]),
  (strL "00:40:8C", [(strL "AXIS-CAM", .const (strL "Axis IP Camera")),
                     (strL "CAMERA", .const (strL "Axis P3245-V"))]),
  (strL "00:17:E5", [(strL "SENSOR", .const (strL "IoT Sensor")),
                     (strL "TI-SENSOR", .const (strL "Environmental Sensor"))]),
  (strL "00:00:9A", [(strL "GE-MEDICAL", .const (strL "GE Patient Monitor")),
                     (strL "GE-MONITOR", .const (strL "GE CARESCAPE Monitor"))]),
  (strL "00:1E:C0", [(strL "PHILIPS-MED", .const (strL "Philips IntelliVue")),
                     (strL "PATIENT-MON", .const (strL "Philips Patient Monitor"))])]

def alphaUpperDigits : Str := strL "ABCDEFGHIJKLMNOPQRSTUVWXYZ0123456789"

/-- ClientGenerator._generate_mac. -/
def _generate_mac (oui : Str) (r : Rng) : Str × Rng :=
  let (b1, r) := randint 0 255 r
  let (b2, r) := randint 0 255 r
  let (b3, r) := randint 0 255 r
  (toLowerS oui ++ ':' :: hex2 b1 ++ ':' :: hex2 b2 ++ ':' :: hex2 b3, r)

/-- ClientGenerator._generate_ip_from_subnet. -/
def _generate_ip_from_subnet (subnet : Str) (client_index : Nat) : Str :=
  let base := pyRSplitHead '.' ((pySplitC '/' subnet).headD [])
  base ++ '.' :: natStr ((client_index % 250) + 2)

/-- ClientGenerator._generate_hostname_and_type. -/
def _generate_hostname_and_type (oui os : Str) (r : Rng) : (Str × Str) × Rng :=
  let dfltChoice : Str × TypeGen := (strL "DEVICE", .withOs (strL "Unknown Device"))
  let choices := (lookupAssoc prefixes_by_oui (toUpperS oui)).getD [dfltChoice]
  let (pt, r) := choiceD choices dfltChoice r
  let device_type := applyTypeGen pt.2 os
  let (suffix, r) := choicesK alphaUpperDigits 'A' 4 r
  ((pt.1 ++ '-' :: suffix, device_type), r)

def iot_patterns : List Str :=
  [strL "PRINTER", strL "SCANNER", strL "SENSOR", strL "CAMERA", strL "VOIP",
   strL "NUC", strL "DEVICE-", strL "SMARTTV", strL "TV", strL "GE-",
   strL "PHILIPS-", strL "PATIENT", strL "MEDICAL", strL "MONITOR"]

def iot_type_patterns : List Str :=
  [strL "printer", strL "scanner", strL "sensor", strL "camera", strL "ip phone",
   strL "iot", strL "intel nuc", strL "smart tv", strL "television",
   strL "medical", strL "patient", strL "healthcare"]

/-- ClientGenerator._is_iot_device. -/
def _is_iot_device (hostname device_type_prediction : Str) : Bool :=
  let hostname_upper := toUpperS hostname
  let type_lower := toLowerS device_type_prediction
  iot_patterns.any (fun p => subIn p hostname_upper) ||
    iot_type_patterns.any (fun p => subIn p type_lower)

/-- ClientGenerator._get_ssid_for_device. -/
def _get_ssid_for_device (hostname device_type_prediction named_vlan : Str)
    (r : Rng) : Str × Rng :=
  if _is_iot_device hostname device_type_prediction then (strL "IoT", r)
  else if !named_vlan.isEmpty && subIn (strL "guest") (toLowerS named_vlan) then
    (strL "Guest", r)
  else
    let (u, r) := randMil r
    (if u < 900 then strL "Corporate" else strL "Guest", r)

def first_names : List Str :=
  [strL "john", strL "jane", strL "mike", strL "sarah", strL "david",
   strL "lisa", strL "tom", strL "anna", strL "chris", strL "kate"]

def last_names : List Str :=
  [strL "smith", strL "jones", strL "wilson", strL "brown", strL "davis",
   strL "miller", strL "moore", strL "taylor", strL "anderson", strL "thomas"]

/-- ClientGenerator._generate_user. -/
def _generate_user (r : Rng) : Str × Rng :=
  let (fn, r) := choiceD first_names [] r
  let (ln, r) := choiceD last_names [] r
  (fn ++ '.' :: ln, r)

/-- The vlan_names table of _get_vlan_name. -/
def vlan_names : List (Nat × Str) := [
  (1, strL "Default"), (10, strL "Corporate"), (11, strL "Corporate"),
  (12, strL "Corporate"), (13, strL "Corporate"), (20, strL "Corporate"),
  (21, strL "Corporate"), (30, strL "Guest"), (31, strL "Guest"),
  (40, strL "Voice"), (41, strL "Voice"), (50, strL "Servers"),
  (60, strL "IoT"), (70, strL "Management"), (80, strL "Wireless"),
  (90, strL "Security"), (99, strL "Management"), (100, strL "Data")]

/-- ClientGenerator._get_vlan_name (int() failure falls back to the
VLAN-prefixed label). -/
def _get_vlan_name (vlan_id : Str) : Str :=
  match parseNat vlan_id with
  | none => strL "VLAN " ++ vlan_id
  | some vid =>
    match (vlan_names.find? (fun e => e.1 == vid)).map (fun e => e.2) with
    | some nm => nm
    | none =>
      if vid < 20 then strL "Corporate"
      else if vid < 40 then strL "Guest"
      else if vid < 60 then strL "Voice"
      else if vid < 80 then strL "IoT"
      else if vid < 100 then strL "Management"
      else strL "Data"

def usage_patterns : List (Str × ((Nat × Nat) × (Nat × Nat))) := [
  (strL "Computer", ((500000000, 5000000000), (1000000000, 10000000000))),
  (strL "Phone", ((50000000, 500000000), (200000000, 2000000000))),
  (strL "Tablet", ((100000000, 1000000000), (500000000, 5000000000))),
  (strL "Printer", ((1000000, 50000000), (10000000, 100000000))),
  (strL "VoIP phone", ((500000000, 2000000000), (500000000, 2000000000))),
  (strL "IP camera", ((5000000000, 50000000000), (10000000, 100000000))),
  (strL "Smart TV", ((100000000, 500000000), (2000000000, 20000000000))),
  (strL "Medical", ((10000000, 100000000), (50000000, 500000000))),
  (strL "Other", ((1000000, 100000000), (5000000, 200000000)))]

/-- Usage pattern selection in generate_client. -/
def usagePatternFor (device_type_prediction : Str) : (Nat × Nat) × (Nat × Nat) :=
  let device_type_lower := toLowerS device_type_prediction
  if [strL "smart tv", strL "television", strL "tizen", strL "webos"].any
      (fun p => subIn p device_type_lower) then
    ((100000000, 500000000), (2000000000, 20000000000))
  else if [strL "medical", strL "patient", strL "healthcare", strL "intellivue",
      strL "carescape"].any (fun p => subIn p device_type_lower) then
    ((10000000, 100000000), (50000000, 500000000))
  else
    (lookupAssoc usage_patterns device_type_prediction).getD
      ((1000000, 100000000), (5000000, 200000000))

def notesChoices : List (Option Str) :=
  [none, none, none, some (strL "Visitor device"), some (strL "Temp access"),
   some (strL "Executive laptop"), some (strL "Conference room")]

def adaptiveChoices : List (Option Str) :=
  [none, none, some (strL "1: Employee"), some (strL "2: Infrastructure"),
   some (strL "3: Guest"), some (strL "4: IoT Devices")]

def groupPolicyChoices : List (Option Str) :=
  [none, none, none, some (strL "Employee_Access"), some (strL "Guest_Access"),
   some (strL "Contractor_Access"), some (strL "Student_Access")]

def pskChoices : List (Option Str) :=
  [none, none, none, some (strL "Group 1"), some (strL "Group 2"),
   some (strL "IoT Group")]

def ssidChoices : List Str := [strL "Corporate", strL "Guest", strL "IoT"]

def wirelessCapsChoices : List Str :=
  [strL "802.11ac - 2.4 GHz", strL "802.11ac - 5 GHz", strL "802.11ax - 2.4 GHz",
   strL "802.11ax - 5 GHz", strL "802.11ax - 6 GHz", strL "802.11n - 2.4 GHz"]

/-- The wireless-finalisation tail of ClientGenerator.generate_client:
wireless clients swap the switchport for an ssid and capabilities. -/
def finishClient (client : Client) (r : Rng) : Client × Rng :=
  if client.recentDeviceConnection == strL "Wireless" then
    let (ssid, r) := choiceD ssidChoices [] r
    let (wc, r) := choiceD wirelessCapsChoices [] r
    let client2 := {client with ssid := some ssid, switchport := none, wirelessCapabilities := some wc}
    (client2, r)
  else (client, r)

/-- ClientGenerator.generate_client.  now is the epoch-seconds value of
datetime.utcnow() at the moment of the call; vlan_id flows in as the
string the callers actually pass (a VLAN id rendered by str()). -/
def generate_client (client_id : Str) (_network_id : Str) (vlan_id : Str)
    (client_index : Nat) (device_serial : Option Str) (vlan_subnet : Option Str)
    (force_manufacturer : Option Manufacturer) (now : Nat) (r : Rng) :
    Client × Rng :=
  let (manufacturer, r) :=
    match force_manufacturer with
    | some m => (m, r)
    | none => choiceD manufacturersWeighted dfltManufacturer r
  let (mac, r) := _generate_mac manufacturer.oui r
  let ip :=
    match vlan_subnet with
    | some s =>
      if s.isEmpty then strL "192.168." ++ vlan_id ++ '.' :: natStr ((client_index % 250) + 2)
      else _generate_ip_from_subnet s client_index
    | none => strL "192.168." ++ vlan_id ++ '.' :: natStr ((client_index % 250) + 2)
  let (os, r) := choiceD manufacturer.os [] r
  let (ht, r) := _generate_hostname_and_type manufacturer.oui os r
  let hostname := ht.1
  let device_type_prediction := ht.2
  let (days, r) := randint 1 90 r
  let first_seen_ts := natStr (now - days * 86400)
  let (mins, r) := randint 0 60 r
  let last_seen_ts := natStr (now - mins * 60)
  let pattern := usagePatternFor device_type_prediction
  let (sent, r) := randint pattern.1.1 pattern.1.2 r
  let (recv, r) := randint pattern.2.1 pattern.2.2 r
  let (u_user, r) := randMil r
  let userR :=
    if u_user > 300 then
      let (u, r) := _generate_user r
      (some u, r)
    else (none, r)
  let user := userR.1
  let r := userR.2
  let (u_sp, r) := randMil r
  let spR :=
    if u_sp > 400 then
      let (p, r) := randint 1 48 r
      (some (strL "GigabitEthernet1/0/" ++ natStr p), r)
    else (none, r)
  let switchport := spR.1
  let r := spR.2
  let (u_status, r) := randMil r
  let status := if u_status > 100 then strL "Online" else strL "Offline"
  let (notes, r) := choiceD notesChoices none r
  let (u_sm, r) := randMil r
  let (u_conn, r) := randMil r
  let recentDeviceConnection := if u_conn > 400 then strL "Wired" else strL "Wireless"
  let (adaptive, r) := choiceD adaptiveChoices none r
  let (gp, r) := choiceD groupPolicyChoices none r
  let (psk, r) := choiceD pskChoices none r
  let client : Client :=
    { id := client_id, mac := mac, ip := ip, ip6 := none, ip6Local := none,
      description := hostname, firstSeen := first_seen_ts, lastSeen := last_seen_ts,
      manufacturer := manufacturer.name, os := os,
      deviceTypePrediction := device_type_prediction, user := user,
      vlan := vlan_id, namedVlan := _get_vlan_name vlan_id,
      switchport := switchport, ssid := none, status := status, notes := notes,
      smInstalled := u_sm > 800, recentDeviceSerial := device_serial,
      recentDeviceName := none, recentDeviceMac := none,
      recentDeviceConnection := recentDeviceConnection,
      wirelessCapabilities := none, adaptivePolicyGroup := adaptive,
      groupPolicy8021x := gp, pskGroup := psk,
      usage := {sent := sent, recv := recv, total := sent + recv} }
  finishClient client r

/-- ClientGenerator.generate_network_client: the full base-client field
set plus the internal _network_id field. -/
def generate_network_client (client_id network_id vlan_id : Str)
    (client_index : Nat) (vlan_subnet : Option Str)
    (force_manufacturer : Option Manufacturer) (now : Nat) (r : Rng) :
    NetClient × Rng :=
  let bR := generate_client client_id network_id vlan_id client_index none
    vlan_subnet force_manufacturer now r
  ({base := bR.1, network_id := network_id}, bR.2)

/-- ClientGenerator.generate_device_client. -/
def generate_device_client (client_id network_id vlan_id : Str)
    (client_index : Nat) (device_serial : Str) (vlan_subnet : Option Str)
    (now : Nat) (r : Rng) : DevClient × Rng :=
  let bR := generate_client client_id network_id vlan_id client_index
    (some device_serial) vlan_subnet none now r
  let b := bR.1
  ({id := b.id, mac := b.mac, description := b.description,
    mdnsName := b.description,
    dhcpHostname := (toUpperS (b.description.filter (fun ch => ch != '-'))).take 15,
    user := b.user, ip := b.ip, vlan := b.vlan, namedVlan := b.namedVlan,
    switchport := b.switchport, adaptivePolicyGroup := b.adaptivePolicyGroup,
    usage := {sent := b.usage.sent / 1000, recv := b.usage.recv / 1000}}, bR.2)

/-- Map from device serial to its device-level clients, in dict insertion
order. -/
abbrev DevMap : Type := List (Str × List DevClient)

/-- Dict-comprehension initialisation: one empty entry per switch or
wireless device, first occurrence wins on duplicate serials. -/
def initDevMap (devices : List Device) : DevMap :=
  devices.foldl
    (fun m d =>
      if (d.productType == strL "switch" || d.productType == strL "wireless") &&
          !(m.any (fun e => e.1 == d.serial)) then
        m ++ [(d.serial, [])]
      else m) []

/-- device_clients[serial].append(c): append to the entry with this key. -/
def appendDevMap (m : DevMap) (k : Str) (c : DevClient) : DevMap :=
  m.map (fun e => if e.1 == k then (e.1, e.2 ++ [c]) else e)

def always_wireless_host : List Str :=
  [strL "IPHONE", strL "IPAD", strL "GALAXY", strL "PIXEL", strL "SAMSUNG-TAB",
   strL "TABLET"]

def always_wireless_pred : List Str :=
  [strL "iphone", strL "ipad", strL "galaxy", strL "pixel", strL "tablet",
   strL "android"]

def always_wired_host : List Str :=
  [strL "DESKTOP", strL "PRINTER", strL "SCANNER", strL "VOIP", strL "SENSOR",
   strL "CAMERA", strL "NUC", strL "GE-", strL "PHILIPS-", strL "PATIENT",
   strL "MEDICAL", strL "CISCO-PHONE", strL "HP-PRINTER", strL "HP-MFP",
   strL "EPSON-", strL "CANON-", strL "AXIS-", strL "HON-", strL "ZEBRA-"]

def always_wired_pred : List Str :=
  [strL "desktop", strL "printer", strL "scanner", strL "ip phone", strL "voip",
   strL "sensor", strL "camera", strL "nuc", strL "medical", strL "patient",
   strL "healthcare", strL "laserjet", strL "officejet", strL "intellivue",
   strL "carescape"]

def smart_tv_host : List Str :=
  [strL "SAMSUNG-TV", strL "LG-TV", strL "SMARTTV", strL "LGTV"]

def smart_tv_pred : List Str :=
  [strL "smart tv", strL "television", strL "tizen", strL "webos"]

/-- The fallback dict used when the vlans list is empty; only its id,
name and subnet keys exist (the remaining fields below are never read). -/
def fallbackVlan : Vlan :=
  {id := strL "1", interfaceId := [], networkId := [], name := strL "Default",
   applianceIp := [], subnet := strL "192.168.1.0/24", fixedIpAssignments := [],
   reservedIpRanges := [], dnsNameservers := [], dhcpHandling := [],
   dhcpLeaseTime := [], dhcpBootOptionsEnabled := false, dhcpOptions := [],
   vpnNatSubnet := [], mandatoryDhcpEnabled := false, ipv6Enabled := false,
   dhcpBootFilename := none, dhcpBootNextServer := none,
   dhcpRelayServerIps := [], groupPolicyId := none, templateVlanType := [],
   cidr := [], mask := 0}

def dfltDevice : Device :=
  {serial := [], name := [], mac := [], networkId := [], organizationId := [],
   model := [], productType := [], firmware := [], lanIp := [], tags := [],
   lat := 0, lng := 0, address := [], notes := none, url := [],
   configurationUpdatedAt := 0, details := [], wan1Ip := none, wan2Ip := none,
   imei := none}

def genClientSel (nc : NetClient) (hostname device_prediction vlan_name : Str)
    (switches access_points : List Device) (has_switches has_aps : Bool)
    (client_id network_id vlan_id : Str) (i : Nat) (vlan_subnet : Str)
    (now : Nat) (is_wired0 : Bool) (r : Rng) :
    (NetClient × Option (Str × DevClient)) × Rng :=
  let is_wired := if is_wired0 && !has_switches then false else is_wired0
  let is_wired := if !is_wired && !has_aps then true else is_wired
  let selR :=
    if is_wired && has_switches then
      let (d, r) := choiceD switches dfltDevice r
      ((some d, strL "Wired"), r)
    else if !is_wired && has_aps then
      let (d, r) := choiceD access_points dfltDevice r
      ((some d, strL "Wireless"), r)
    else if has_switches then
      let (d, r) := choiceD switches dfltDevice r
      ((some d, strL "Wired"), r)
    else if has_aps then
      let (d, r) := choiceD access_points dfltDevice r
      ((some d, strL "Wireless"), r)
    else
      ((none, if is_wired then strL "Wired" else strL "Wireless"), r)
  let sel := selR.1
  let r := selR.2
  let device := sel.1
  let connection_type := sel.2
  let device_serial := device.map (fun d => d.serial)
  let device_name := device.map (fun d => d.name)
  let device_mac := device.map (fun d => d.mac)
  let nc := {nc with base := {nc.base with recentDeviceSerial := device_serial, recentDeviceName := device_name, recentDeviceMac := device_mac, recentDeviceConnection := connection_type}}
  let client_named_vlan := vlan_name
  let ncR2 :=
    if connection_type == strL "Wired" then
      let (p, r) := randint 1 48 r
      ({nc with base := {nc.base with switchport := some (strL "GigabitEthernet1/0/" ++ natStr p), ssid := none, wirelessCapabilities := none}}, r)
    else
      let sidR := _get_ssid_for_device hostname device_prediction
        client_named_vlan r
      let (wc, r) := choiceD wirelessCapsChoices [] sidR.2
      ({nc with base := {nc.base with switchport := none, ssid := some sidR.1, wirelessCapabilities := some wc}}, r)
  let nc2 := ncR2.1
  let r := ncR2.2
  match device_serial with
  | some serial =>
    let dcR := generate_device_client client_id network_id vlan_id i serial
      (some vlan_subnet) now r
    let dc :=
      if connection_type == strL "Wired" then
        {dcR.1 with switchport := nc2.base.switchport}
      else {dcR.1 with switchport := none}
    ((nc2, some (serial, dc)), dcR.2)
  | none => ((nc2, none), r)

def genClientConn (nc : NetClient) (vlan_name : Str)
    (switches access_points : List Device) (has_switches has_aps : Bool)
    (client_id network_id vlan_id : Str) (i : Nat) (vlan_subnet : Str)
    (now : Nat) (r : Rng) : (NetClient × Option (Str × DevClient)) × Rng :=
  let hostname := toUpperS nc.base.description
  let device_prediction := toLowerS nc.base.deviceTypePrediction
  let always_wireless :=
    always_wireless_host.any (fun p => subIn p hostname) ||
      always_wireless_pred.any (fun p => subIn p device_prediction)
  let always_wired :=
    always_wired_host.any (fun p => subIn p hostname) ||
      always_wired_pred.any (fun p => subIn p device_prediction)
  let is_smart_tv :=
    smart_tv_host.any (fun p => subIn p hostname) ||
      smart_tv_pred.any (fun p => subIn p device_prediction)
  let iwR :=
    if always_wireless then (false, r)
    else if always_wired then (true, r)
    else if is_smart_tv then
      let (u, r) := randMil r
      (u < 500, r)
    else
      let (u, r) := randMil r
      (u < 400, r)
  genClientSel nc hostname device_prediction vlan_name switches access_points
    has_switches has_aps client_id network_id vlan_id i vlan_subnet now
    iwR.1 iwR.2

/-- One iteration of the generate_clients_for_network loop: produces the
network-level client and, when a device was assigned, the device-level
client keyed by serial. -/
def genOneClient (network_id : Str) (vlans : List Vlan)
    (switches access_points : List Device) (has_switches has_aps : Bool)
    (required_mfrs : List Str) (now : Nat) (i : Nat) (r : Rng) :
    (NetClient × Option (Str × DevClient)) × Rng :=
  let vlanR :=
    if vlans.isEmpty then (fallbackVlan, r) else choiceD vlans fallbackVlan r
  let vlan := vlanR.1
  let r := vlanR.2
  let vlan_id := vlan.id
  let vlan_name := vlan.name
  let vlan_subnet := vlan.subnet
  let (cidN, r) := randint 100000 999999 r
  let client_id := 'k' :: natStr cidN
  let force_mfr : Option Manufacturer :=
    if i < required_mfrs.length then
      match lookupAssoc DEVICE_TYPE_BY_KEY (required_mfrs.getD i []) with
      | some oui => manufacturerByOui oui
      | none => none
    else none
  let ncR := generate_network_client client_id network_id vlan_id i
    (some vlan_subnet) force_mfr now r
  let r := ncR.2
  let nc := {ncR.1 with base := {(ncR.1).base with namedVlan := vlan_name}}
  genClientConn nc vlan_name switches access_points has_switches has_aps
    client_id network_id vlan_id i vlan_subnet now r

/-- The for-loop of generate_clients_for_network, from index i for todo
more clients, threading the device-clients map. -/
def genClientsLoop (network_id : Str) (vlans : List Vlan)
    (switches access_points : List Device) (has_switches has_aps : Bool)
    (required_mfrs : List Str) (now : Nat) :
    Nat → Nat → DevMap → Rng → (List NetClient × DevMap) × Rng
  | _, 0, m, r => (([], m), r)
  | i, todo + 1, m, r =>
    let oneR := genOneClient network_id vlans switches access_points
      has_switches has_aps required_mfrs now i r
    let one := oneR.1
    let m2 :=
      match one.2 with
      | some (serial, dc) => appendDevMap m serial dc
      | none => m
    let restR := genClientsLoop network_id vlans switches access_points
      has_switches has_aps required_mfrs now (i + 1) todo m2 oneR.2
    ((one.1 :: restR.1.1, restR.1.2), restR.2)

/-- ClientGenerator.generate_clients_for_network. -/
def generate_clients_for_network (network_id : Str) (vlans : List Vlan)
    (count : Nat) (devices : List Device) (required_manufacturers : List Str)
    (now : Nat) (r : Rng) : (List NetClient × DevMap) × Rng :=
  let device_clients := initDevMap devices
  let switches := devices.filter (fun d => d.productType == strL "switch")
  let access_points := devices.filter (fun d => d.productType == strL "wireless")
  let has_switches := decide (0 < switches.length)
  let has_aps := decide (0 < access_points.length)
  genClientsLoop network_id vlans switches access_points has_switches has_aps
    required_manufacturers now 0 count device_clients r

end ClientGen

/-! ### Device generator (seed_data/generators/device_generator.py) -/

namespace DeviceGen

def MERAKI_OUI : Str := strL "00:18:0A"

/-- Per-product-type serial prefix and model-to-firmware-list table
(the DEVICE_MODELS constant; the ports/band/resolution metadata keys are
never read by the code and are omitted). -/
structure ModelsEntry where
  pfxS : Str
  models : List (Str × List Str)
  deriving DecidableEq, Repr

def DEVICE_MODELS : List (Str × ModelsEntry) := [
  (strL "appliance",
   {pfxS := strL "Q2", models := [
     (strL "MX450", [strL "MX 18.107", strL "MX 18.106", strL "MX 17.12"]),
     (strL "MX250", [strL "MX 18.107", strL "MX 18.106"]),
     (strL "MX85", [strL "MX 18.107", strL "MX 18.106", strL "MX 17.12"]),
     (strL "MX75", [strL "MX 18.107", strL "MX 18.106"]),
     (strL "MX68", [strL "MX 18.107", strL "MX 18.106", strL "MX 17.12"]),
     (strL "MX68W", [strL "MX 18.107", strL "MX 18.106"]),
     (strL "MX67", [strL "MX 18.107", strL "MX 18.106"]),
     (strL "MX67C", [strL "MX 18.107", strL "MX 18.106"])]}),
  (strL "switch",
   {pfxS := strL "Q2", models := [
     (strL "MS425-32", [strL "MS 15.21", strL "MS 15.20", strL "MS 14.33"]),
     (strL "MS350-48", [strL "MS 15.21", strL "MS 15.20"]),
     (strL "MS250-48", [strL "MS 15.21", strL "MS 15.20", strL "MS 14.33"]),
     (strL "MS225-48", [strL "MS 15.21", strL "MS 15.20"]),
     (strL "MS225-24", [strL "MS 15.21", strL "MS 15.20"]),
     (strL "MS120-24", [strL "MS 15.21", strL "MS 15.20", strL "MS 14.33"]),
     (strL "MS120-8", [strL "MS 15.21", strL "MS 15.20"])]}),
  (strL "wireless",
   {pfxS := strL "Q2", models := [
     (strL "MR57", [strL "MR 30.5", strL "MR 29.7", strL "MR 28.8"]),
     (strL "MR56", [strL "MR 30.5", strL "MR 29.7"]),
     (strL "MR46", [strL "MR 30.5", strL "MR 29.7", strL "MR 28.8"]),
     (strL "MR36", [strL "MR 30.5", strL "MR 29.7"]),
     (strL "MR33", [strL "MR 30.5", strL "MR 29.7", strL "MR 28.8"]),
     (strL "MR30H", [strL "MR 30.5", strL "MR 29.7"])]}),
  (strL "cellularGateway",
   {pfxS := strL "Q2", models := [
     (strL "MG41", [strL "MG 1.24.2", strL "MG 1.23.1"]),
     (strL "MG21", [strL "MG 1.24.2", strL "MG 1.23.1"])]}),
  (strL "sensor",
   {pfxS := strL "Q3", models := [
     (strL "MT10", [strL "MT 1.0.3"]),
     (strL "MT12", [strL "MT 1.0.3"]),
     (strL "MT14", [strL "MT 1.0.3"])]}),
  (strL "camera",
   {pfxS := strL "Q2", models := [
     (strL "MV12W", [strL "MV 4.18"]),
     (strL "MV22", [strL "MV 4.18"]),
     (strL "MV72", [strL "MV 4.18"])]})]

/-- The US_LOCATIONS table; lat/lng in units of 10^-4 degrees. -/
def US_LOCATIONS : List Location := [
  {city := strL "San Francisco", state := strL "CA", lat := 377749,
   lng := -1224194, tz := strL "America/Los_Angeles"},
  {city := strL "New York", state := strL "NY", lat := 407128, lng := -740060,
   tz := strL "America/New_York"},
  {city := strL "Chicago", state := strL "IL", lat := 418781, lng := -876298,
   tz := strL "America/Chicago"},
  {city := strL "Los Angeles", state := strL "CA", lat := 340522,
   lng := -1182437, tz := strL "America/Los_Angeles"},
  {city := strL "Seattle", state := strL "WA", lat := 476062, lng := -1223321,
   tz := strL "America/Los_Angeles"},
  {city := strL "Austin", state := strL "TX", lat := 302672, lng := -977431,
   tz := strL "America/Chicago"},
  {city := strL "Denver", state := strL "CO", lat := 397392, lng := -1049903,
   tz := strL "America/Denver"},
  {city := strL "Boston", state := strL "MA", lat := 423601, lng := -710589,
   tz := strL "America/New_York"},
  {city := strL "Atlanta", state := strL "GA", lat := 337490, lng := -843880,
   tz := strL "America/New_York"},
  {city := strL "Miami", state := strL "FL", lat := 257617, lng := -801918,
   tz := strL "America/New_York"},
  {city := strL "Dallas", state := strL "TX", lat := 327767, lng := -967970,
   tz := strL "America/Chicago"},
  {city := strL "Phoenix", state := strL "AZ", lat := 334484, lng := -1120740,
   tz := strL "America/Phoenix"},
  {city := strL "Portland", state := strL "OR", lat := 455152, lng := -1226784,
   tz := strL "America/Los_Angeles"},
  {city := strL "Minneapolis", state := strL "MN", lat := 449778,
   lng := -932650, tz := strL "America/Chicago"},
  {city := strL "Detroit", state := strL "MI", lat := 423314, lng := -830458,
   tz := strL "America/Detroit"},
  {city := strL "Philadelphia", state := strL "PA", lat := 399526,
   lng := -751652, tz := strL "America/New_York"},
  {city := strL "San Diego", state := strL "CA", lat := 327157,
   lng := -1171611, tz := strL "America/Los_Angeles"},
  {city := strL "Houston", state := strL "TX", lat := 297604, lng := -953698,
   tz := strL "America/Chicago"},
  {city := strL "Charlotte", state := strL "NC", lat := 352271, lng := -808431,
   tz := strL "America/New_York"},
  {city := strL "Salt Lake City", state := strL "UT", lat := 407608,
   lng := -1118910, tz := strL "America/Denver"}]

def dfltLocation : Location :=
  {city := [], state := [], lat := 0, lng := 0, tz := []}

/-- DeviceGenerator._generate_serial. -/
def _generate_serial (pfxS : Str) (r : Rng) : Str × Rng :=
  let (p1, r) := choicesK ClientGen.alphaUpperDigits 'A' 2 r
  let (p2, r) := choicesK ClientGen.alphaUpperDigits 'A' 4 r
  let (p3, r) := choicesK ClientGen.alphaUpperDigits 'A' 4 r
  (pfxS ++ p1 ++ '-' :: p2 ++ '-' :: p3, r)

/-- DeviceGenerator._generate_mac. -/
def _generate_mac (r : Rng) : Str × Rng :=
  let (b1, r) := randint 0 255 r
  let (b2, r) := randint 0 255 r
  let (b3, r) := randint 0 255 r
  (MERAKI_OUI ++ ':' :: hex2 b1 ++ ':' :: hex2 b2 ++ ':' :: hex2 b3, r)

/-- DeviceGenerator._generate_lan_ip. -/
def _generate_lan_ip (network_octet device_index : Nat) : Str :=
  strL "10." ++ natStr network_octet ++ '.' :: natStr (device_index / 254) ++
    '.' :: natStr (device_index % 254 + 1)

/-- DeviceGenerator._generate_wan_ip. -/
def _generate_wan_ip (r : Rng) : Str × Rng :=
  let (a, r) := randint 50 200 r
  let (b, r) := randint 1 254 r
  let (c, r) := randint 1 254 r
  let (d, r) := randint 1 254 r
  (natStr a ++ '.' :: natStr b ++ '.' :: natStr c ++ '.' :: natStr d, r)

/-- DeviceGenerator.generate_device. -/
def generate_device (network_id organization_id product_type model name : Str)
    (location : Location) (network_octet device_index : Nat) (tags : List Str)
    (now : Nat) (r : Rng) : Device × Rng :=
  let entry := lookupAssoc DEVICE_MODELS product_type
  let fwList :=
    match entry with
    | some e => (lookupAssoc e.models model).getD [strL "unknown"]
    | none => [strL "unknown"]
  let pfxS := (entry.map (fun e => e.pfxS)).getD (strL "Q2")
  let (firmware, r) := choiceD fwList (strL "unknown") r
  let (serial, r) := _generate_serial pfxS r
  let (mac, r) := _generate_mac r
  let lan_ip := _generate_lan_ip network_octet device_index
  let (jlat, r) := uniformJitter r
  let (jlng, r) := uniformJitter r
  let (houseN, r) := randint 100 9999 r
  let (hoursAgo, r) := randint 1 72 r
  let device : Device :=
    { serial := serial, name := name, mac := mac, networkId := network_id,
      organizationId := organization_id, model := model,
      productType := product_type, firmware := firmware, lanIp := lan_ip,
      tags := tags, lat := location.lat + jlat, lng := location.lng + jlng,
      address := natStr houseN ++ ' ' :: location.city ++ strL " St",
      notes := none,
      url := strL "https://mock.meraki.com/devices/" ++ serial ++ strL "/manage",
      configurationUpdatedAt := now - hoursAgo * 3600, details := [],
      wan1Ip := none, wan2Ip := none, imei := none }
  let devR :=
    if product_type == strL "appliance" then
      let (w1, r) := _generate_wan_ip r
      let (u, r) := randMil r
      if u > 700 then
        let (w2, r) := _generate_wan_ip r
        ({device with wan1Ip := some w1, wan2Ip := some w2}, r)
      else ({device with wan1Ip := some w1}, r)
    else (device, r)
  if product_type == strL "cellularGateway" then
    let (digs, r) := choicesK (strL "0123456789") '0' 15 devR.2
    ({devR.1 with imei := some ((parseNat digs).getD 0)}, r)
  else devR

/-- DeviceGenerator.generate_device_availability. -/
def generate_device_availability (device : Device) (r : Rng) :
    DeviceAvailability × Rng :=
  let (u, r) := randMil r
  let stR :=
    if u < 950 then (strL "online", r)
    else choiceD [strL "alerting", strL "offline", strL "dormant"] [] r
  ({serial := device.serial, name := device.name, mac := device.mac,
    networkId := device.networkId, productType := device.productType,
    status := stR.1, tags := device.tags}, stR.2)

/-- DeviceGenerator.generate_device_status.  The publicIp draw happens
unconditionally because Python evaluates the default argument of
dict.get eagerly. -/
def generate_device_status (device : Device) (statusIn : Option Str)
    (now : Nat) (r : Rng) : DeviceStatus × Rng :=
  let stR :=
    match statusIn with
    | some s => (s, r)
    | none =>
      let (u, r) := randMil r
      if u < 950 then (strL "online", r)
      else choiceD [strL "alerting", strL "offline", strL "dormant"] [] r
  let status := stR.1
  let r := stR.2
  let lan_ip := device.lanIp
  let gateway :=
    if containsC lan_ip '.' then pyRSplitHead '.' lan_ip ++ strL ".1"
    else strL "10.0.0.1"
  let deltaR :=
    if status == strL "online" then
      let (m, r) := randint 1 5 r
      (m * 60, r)
    else if status == strL "alerting" then
      let (m, r) := randint 5 15 r
      (m * 60, r)
    else
      let (h, r) := randint 1 72 r
      (h * 3600, r)
  let delta := deltaR.1
  let (wdflt, r) := _generate_wan_ip deltaR.2
  let publicIp := device.wan1Ip.getD wdflt
  let (micro, r) := randint 0 999999 r
  let (uip, r) := randMil r
  let base : DeviceStatus :=
    { name := device.name, serial := device.serial, mac := device.mac,
      publicIp := publicIp, networkId := device.networkId, status := status,
      lastReportedAtTs := now - delta, lastReportedAtMicro := micro,
      lanIp := lan_ip, gateway := gateway,
      ipType := if uip < 700 then strL "dhcp" else strL "static",
      primaryDns := strL "8.8.8.8", secondaryDns := strL "8.8.4.4",
      productType := device.productType, model := device.model,
      tags := device.tags, components := none }
  if device.productType == strL "switch" &&
      ((strL "MS4").isPrefixOf device.model || (strL "MS3").isPrefixOf device.model) then
    let (psSerial, r) := _generate_serial (strL "Q2") r
    let ps : PowerSupply :=
      { slot := 0, serial := psSerial,
        model := if subIn (strL "MS3") device.model then strL "PWR-MS320-250WAC"
                 else strL "PWR-MS425-400WAC",
        status := strL "powering", poeUnit := strL "watts",
        poeMaximum := if subIn (strL "MS3") device.model then 370 else 740 }
    ({base with components := some [ps]}, r)
  else (base, r)

/-- Declarative device config entry for the appliances list. -/
structure ApplianceCfg where
  model : Option Str
  name : Option Str
  tags : List Str
  deriving DecidableEq, Repr

/-- Declarative device config entry for the switches/wireless (and the
ignored cameras/sensors) lists; name_prefix is rendered name_pfx. -/
structure CountCfg where
  model : Option Str
  count : Option Nat
  name_pfx : Option Str
  tags : List Str
  deriving DecidableEq, Repr

/-- Declarative device config entry for the cellular list. -/
structure CellCfg where
  model : Option Str
  name : Option Str
  tags : List Str
  deriving DecidableEq, Repr

/-- The config dict of generate_devices_for_network, as the assemblers
build it (the hub-spoke assembler also passes cameras and sensors keys,
which generate_devices_for_network never reads). -/
structure DeviceConfig where
  appliances : List ApplianceCfg := []
  switches : List CountCfg := []
  wireless : List CountCfg := []
  cellular : List CellCfg := []
  cameras : List CountCfg := []
  sensors : List CountCfg := []
  deriving DecidableEq, Repr

/-- Output bundle of one phase of generate_devices_for_network, with the
device index after the phase. -/
structure DevPhaseOut where
  devices : List Device
  availabilities : List DeviceAvailability
  statuses : List DeviceStatus
  nextIndex : Nat
  deriving DecidableEq, Repr

/-- The appliances loop of generate_devices_for_network. -/
def genAppliancesLoop (nid oid : Str) (loc : Location) (octet now : Nat) :
    List ApplianceCfg → Nat → Rng → DevPhaseOut × Rng
  | [], idx, r => ({devices := [], availabilities := [], statuses := [], nextIndex := idx}, r)
  | c :: cs, idx, r =>
    let model := c.model.getD (strL "MX68")
    let name := c.name.getD (nid ++ strL "-MX")
    let dR := generate_device nid oid (strL "appliance") model name loc
      octet idx c.tags now r
    let avR := generate_device_availability dR.1 dR.2
    let stR := generate_device_status dR.1 (some (avR.1).status) now avR.2
    let restR := genAppliancesLoop nid oid loc octet now cs (idx + 1) stR.2
    let rest := restR.1
    ({devices := dR.1 :: rest.devices, availabilities := avR.1 :: rest.availabilities, statuses := stR.1 :: rest.statuses, nextIndex := rest.nextIndex}, restR.2)

/-- The inner for-i-in-range(count) loop of the switches and wireless
phases. -/
def genCountedLoop (nid oid : Str) (loc : Location) (octet now : Nat)
    (product_type model name_pfx : Str) (tags : List Str) :
    Nat → Nat → Nat → Rng → DevPhaseOut × Rng
  | _, 0, idx, r => ({devices := [], availabilities := [], statuses := [], nextIndex := idx}, r)
  | i, cnt + 1, idx, r =>
    let name := name_pfx ++ '-' :: pad2 (i + 1)
    let dR := generate_device nid oid product_type model name loc octet idx
      tags now r
    let avR := generate_device_availability dR.1 dR.2
    let stR := generate_device_status dR.1 (some (avR.1).status) now avR.2
    let restR := genCountedLoop nid oid loc octet now product_type model
      name_pfx tags (i + 1) cnt (idx + 1) stR.2
    let rest := restR.1
    ({devices := dR.1 :: rest.devices, availabilities := avR.1 :: rest.availabilities, statuses := stR.1 :: rest.statuses, nextIndex := rest.nextIndex}, restR.2)

/-- The switches loop of generate_devices_for_network. -/
def genSwitchesLoop (nid oid : Str) (loc : Location) (octet now : Nat) :
    List CountCfg → Nat → Rng → DevPhaseOut × Rng
  | [], idx, r => ({devices := [], availabilities := [], statuses := [], nextIndex := idx}, r)
  | c :: cs, idx, r =>
    let model := c.model.getD (strL "MS225-48")
    let cnt := c.count.getD 1
    let name_pfx := c.name_pfx.getD (strL "SW")
    let innerR := genCountedLoop nid oid loc octet now (strL "switch")
      model name_pfx c.tags 0 cnt idx r
    let inner := innerR.1
    let restR := genSwitchesLoop nid oid loc octet now cs inner.nextIndex innerR.2
    let rest := restR.1
    ({devices := inner.devices ++ rest.devices, availabilities := inner.availabilities ++ rest.availabilities, statuses := inner.statuses ++ rest.statuses, nextIndex := rest.nextIndex}, restR.2)

/-- The wireless loop of generate_devices_for_network. -/
def genWirelessLoop (nid oid : Str) (loc : Location) (octet now : Nat) :
    List CountCfg → Nat → Rng → DevPhaseOut × Rng
  | [], idx, r => ({devices := [], availabilities := [], statuses := [], nextIndex := idx}, r)
  | c :: cs, idx, r =>
    let model := c.model.getD (strL "MR46")
    let cnt := c.count.getD 1
    let name_pfx := c.name_pfx.getD (strL "AP")
    let innerR := genCountedLoop nid oid loc octet now (strL "wireless")
      model name_pfx c.tags 0 cnt idx r
    let inner := innerR.1
    let restR := genWirelessLoop nid oid loc octet now cs inner.nextIndex innerR.2
    let rest := restR.1
    ({devices := inner.devices ++ rest.devices, availabilities := inner.availabilities ++ rest.availabilities, statuses := inner.statuses ++ rest.statuses, nextIndex := rest.nextIndex}, restR.2)

/-- The cellular loop of generate_devices_for_network. -/
def genCellularLoop (nid oid : Str) (loc : Location) (octet now : Nat) :
    List CellCfg → Nat → Rng → DevPhaseOut × Rng
  | [], idx, r => ({devices := [], availabilities := [], statuses := [], nextIndex := idx}, r)
  | c :: cs, idx, r =>
    let model := c.model.getD (strL "MG41")
    let name := c.name.getD (nid ++ strL "-MG")
    let dR := generate_device nid oid (strL "cellularGateway") model name
      loc octet idx c.tags now r
    let avR := generate_device_availability dR.1 dR.2
    let stR := generate_device_status dR.1 (some (avR.1).status) now avR.2
    let restR := genCellularLoop nid oid loc octet now cs (idx + 1) stR.2
    let rest := restR.1
    ({devices := dR.1 :: rest.devices, availabilities := avR.1 :: rest.availabilities, statuses := stR.1 :: rest.statuses, nextIndex := rest.nextIndex}, restR.2)

/-- DeviceGenerator.generate_devices_for_network: a 3-tuple of devices,
availabilities and statuses.  Only the appliances, switches, wireless and
cellular keys of the config are read. -/
def generate_devices_for_network (nid oid : Str) (loc : Location)
    (config : DeviceConfig) (octet : Nat) (now : Nat) (r : Rng) :
    (List Device × List DeviceAvailability × List DeviceStatus) × Rng :=
  let paR := genAppliancesLoop nid oid loc octet now config.appliances 0 r
  let pa := paR.1
  let psR := genSwitchesLoop nid oid loc octet now config.switches pa.nextIndex paR.2
  let ps := psR.1
  let pwR := genWirelessLoop nid oid loc octet now config.wireless ps.nextIndex psR.2
  let pw := pwR.1
  let pcR := genCellularLoop nid oid loc octet now config.cellular pw.nextIndex pwR.2
  let pc := pcR.1
  ((pa.devices ++ ps.devices ++ pw.devices ++ pc.devices,
    pa.availabilities ++ ps.availabilities ++ pw.availabilities ++ pc.availabilities,
    pa.statuses ++ ps.statuses ++ pw.statuses ++ pc.statuses), pcR.2)

end DeviceGen

/-! ### Network generator (seed_data/generators/network_generator.py) -/

namespace NetworkGen

structure VlanTemplate where
  id : Nat
  name : Str
  subnet : Str
  applianceIp : Str
  dhcpHandling : Str
  dnsNameservers : Str
  deriving DecidableEq, Repr

def corporateTemplate : VlanTemplate :=
  {id := 10, name := strL "Corporate", subnet := strL "192.168.10.0/24",
   applianceIp := strL "192.168.10.1",
   dhcpHandling := strL "Run a DHCP server",
   dnsNameservers := strL "upstream_dns"}

def VLAN_TEMPLATES : List (Str × VlanTemplate) := [
  (strL "corporate", corporateTemplate),
  (strL "guest",
   {id := 20, name := strL "Guest", subnet := strL "192.168.20.0/24",
    applianceIp := strL "192.168.20.1",
    dhcpHandling := strL "Run a DHCP server",
    dnsNameservers := strL "upstream_dns"}),
  (strL "voice",
   {id := 30, name := strL "Voice", subnet := strL "192.168.30.0/24",
    applianceIp := strL "192.168.30.1",
    dhcpHandling := strL "Run a DHCP server",
    dnsNameservers := strL "upstream_dns"}),
  (strL "iot",
   {id := 40, name := strL "IoT", subnet := strL "192.168.40.0/24",
    applianceIp := strL "192.168.40.1",
    dhcpHandling := strL "Run a DHCP server",
    dnsNameservers := strL "upstream_dns"}),
  (strL "management",
   {id := 99, name := strL "Management", subnet := strL "192.168.99.0/24",
    applianceIp := strL "192.168.99.1",
    dhcpHandling := strL "Do not respond to DHCP requests",
    dnsNameservers := strL "upstream_dns"}),
  (strL "server",
   {id := 50, name := strL "Servers", subnet := strL "192.168.50.0/24",
    applianceIp := strL "192.168.50.1",
    dhcpHandling := strL "Do not respond to DHCP requests",
    dnsNameservers := strL "upstream_dns"})]

/-- NetworkGenerator.generate_organization. -/
def generate_organization (org_id name region : Str) (r : Rng) : Org × Rng :=
  let (cust, r) := randint 10000000 99999999 r
  ({id := org_id, name := name,
    url := strL "https://mock.meraki.com/o/" ++
      (toLowerS name).map (fun ch => if ch = ' ' then '-' else ch) ++
      strL "/manage/organization/overview",
    apiEnabled := true, licensingModel := strL "co-term",
    cloudRegionName := region,
    cloudRegionHostName :=
      if region == strL "North America" then strL "United States" else region,
    customerNumber := natStr cust}, r)

/-- NetworkGenerator.generate_network (pure). -/
def generate_network (network_id organization_id name : Str)
    (product_types : List Str) (timezone : Str) (tags : List Str)
    (notes : Str) : Network :=
  {id := network_id, organizationId := organization_id, name := name,
   productTypes := product_types, timeZone := timezone, tags := tags,
   enrollmentString := none,
   url := strL "https://mock.meraki.com/" ++
     name.map (fun ch => if ch = ' ' then '-' else ch) ++ strL "/manage/clients",
   notes := if notes.isEmpty then none else some notes,
   details := none, isBoundToConfigTemplate := false, isVirtual := false}

/-- NetworkGenerator.generate_vlan.  The mask field parses the prefix
length with int(), which raises ValueError on a non-numeric suffix; a
subnet with no slash falls back to mask 24 without parsing. -/
def generate_vlan (network_id : Str) (vlan_id : Nat)
    (name subnet appliance_ip dhcp_handling dns_nameservers : Str) (r : Rng) :
    Except PyErr (Vlan × Rng) :=
  let base_ip := pyRSplitHead '.' subnet
  let _dhcp_start := base_ip ++ strL ".100"
  let _dhcp_end := base_ip ++ strL ".250"
  let (digs, r) := choicesK (strL "0123456789") '0' 13 r
  let interface_id := digs
  let maskE : Except PyErr Nat :=
    if containsC subnet '/' then
      match parseNat ((pySplitC '/' subnet).getD 1 []) with
      | some m => .ok m
      | none => .error (.valueError (strL "invalid literal for int()"))
    else .ok 24
  match maskE with
  | .error e => .error e
  | .ok mask =>
    let v : Vlan :=
      { id := natStr vlan_id, interfaceId := interface_id,
        networkId := network_id, name := name, applianceIp := appliance_ip,
        subnet := subnet, fixedIpAssignments := [], reservedIpRanges := [],
        dnsNameservers := dns_nameservers, dhcpHandling := dhcp_handling,
        dhcpLeaseTime := strL "1 day", dhcpBootOptionsEnabled := false,
        dhcpOptions := [], vpnNatSubnet := subnet, mandatoryDhcpEnabled := false,
        ipv6Enabled := false, dhcpBootFilename := none,
        dhcpBootNextServer := none, dhcpRelayServerIps := [],
        groupPolicyId := none, templateVlanType := strL "same", cidr := subnet,
        mask := mask }
    .ok (v, r)

/-- Subnet literal built by generate_vlans_for_network. -/
def mkSubnetStr (third_octet : Nat) : Str :=
  strL "192.168." ++ natStr third_octet ++ strL ".0/24"

/-- Appliance-ip literal built by generate_vlans_for_network. -/
def mkApplianceIpStr (third_octet : Nat) : Str :=
  strL "192.168." ++ natStr third_octet ++ strL ".1"

/-- The enumerate loop of generate_vlans_for_network, from offset i. -/
def genVlansLoop (network_id : Str) (base_third_octet : Nat) :
    List Str → Nat → Rng → Except PyErr (List Vlan × Rng)
  | [], _, r => .ok ([], r)
  | t :: ts, i, r =>
    let template := (lookupAssoc VLAN_TEMPLATES t).getD corporateTemplate
    let third_octet := base_third_octet + i
    match generate_vlan network_id template.id template.name
      (mkSubnetStr third_octet) (mkApplianceIpStr third_octet)
      template.dhcpHandling template.dnsNameservers r with
    | .error e => .error e
    | .ok (v, r) =>
      match genVlansLoop network_id base_third_octet ts (i + 1) r with
      | .error e => .error e
      | .ok (vs, r) => .ok (v :: vs, r)

/-- NetworkGenerator.generate_vlans_for_network. -/
def generate_vlans_for_network (network_id : Str) (vlan_types : List Str)
    (base_third_octet : Nat) (r : Rng) : Except PyErr (List Vlan × Rng) :=
  genVlansLoop network_id base_third_octet vlan_types 0 r

/-- NetworkGenerator.generate_vlan_profile (pure; the networkId argument
is not stored in the produced dict). -/
def generate_vlan_profile (_network_id profile_id name : Str)
    (vlan_names : List Str) (is_default : Bool) : VlanProfile :=
  {iname := profile_id, name := name, isDefault := is_default,
   vlanNames := vlan_names.map (fun n => {name := n, adaptivePolicyGroup := none}),
   vlanGroups := []}

/-- NetworkGenerator.generate_vpn_config (pure). -/
def generate_vpn_config (_network_id : Str) (mode : Str)
    (subnets : List VpnSubnet) (hubs : Option (List HubRef)) : VpnConfig :=
  {mode := mode, hubs := hubs.getD [], subnets := subnets,
   localStatusPagesEnabled := if mode == strL "hub" then some true else none}

/-- NetworkGenerator.generate_vpn_subnet (pure). -/
def generate_vpn_subnet (subnet : Str) (use_vpn nat_enabled : Bool) : VpnSubnet :=
  {localSubnet := subnet, useVpn := use_vpn, natEnabled := nat_enabled}

/-- NetworkGenerator.generate_cellular_subnet_pool (pure). -/
def generate_cellular_subnet_pool (_network_id : Str) (cidr : Str)
    (mask : Nat) : CellPool :=
  let base2 := pyRSplitHead '.' (pyRSplitHead '.' cidr)
  let sub : CellPoolSubnet :=
    { serial := none, name := strL "Subnet 1",
      applianceIp := base2 ++ strL ".1.1", subnet := base2 ++ strL ".1.0/24" }
  {deploymentMode := strL "routed", cidr := cidr ++ '/' :: natStr mask,
   mask := mask, subnets := [sub]}

end NetworkGen

/-! ### Hub-spoke topology (seed_data/topologies/hub_spoke.py) -/

namespace HubSpoke

open ClientGen DeviceGen NetworkGen

structure VpnEntry where
  network_id : Str
  config : VpnConfig
  deriving DecidableEq, Repr

structure PoolEntry where
  network_id : Str
  config : CellPool
  deriving DecidableEq, Repr

structure Stats where
  organizations : Nat
  networks : Nat
  devices : Nat
  vlans : Nat
  clients : Nat
  deriving DecidableEq, Repr

structure HubSpokeTopology where
  topology_name : Str
  description : Str
  organizations : List Org
  networks : List Network
  devices : List Device
  device_availabilities : List DeviceAvailability
  device_statuses : List DeviceStatus
  vlans : List Vlan
  vlan_profiles : List VlanProfile
  network_clients : List NetClient
  device_clients : DevMap
  vpn_configs : List VpnEntry
  cellular_subnet_pools : List PoolEntry
  stats : Stats
  deriving DecidableEq, Repr

/-- One branch_configs entry. -/
structure BranchConfig where
  name : Str
  model : Str
  switches : List CountCfg := []
  aps : List CountCfg := []
  cameras : List CountCfg := []
  sensors : List CountCfg := []
  cellular : List CellCfg := []
  clients : Nat
  required_clients : List Str := []
  deriving DecidableEq, Repr

/-- Transcription helper for a model+count config dict. -/
def mc (m : String) (c : Nat) : CountCfg :=
  {model := some (strL m), count := some c, name_pfx := none, tags := []}

/-- Transcription helper for a model-only cellular config dict. -/
def cc (m : String) : CellCfg :=
  {model := some (strL m), name := none, tags := []}

/-- The branch_configs table of generate_hub_spoke_topology. -/
def branch_configs : List BranchConfig := [
  {name := strL "Branch-NYC", model := strL "MX85", switches := [mc "MS250-48" 2],
   aps := [mc "MR56" 8], cameras := [mc "MV33" 4, mc "MV63" 2], clients := 60,
   required_clients := [strL "Samsung TV", strL "Samsung TV", strL "LG TV",
     strL "HP Printer", strL "HP Printer", strL "Canon"]},
  {name := strL "Branch-Chicago", model := strL "MX85",
   switches := [mc "MS250-48" 2], aps := [mc "MR56" 6],
   cameras := [mc "MV23" 3, mc "MV63X" 2], clients := 55,
   required_clients := [strL "Samsung TV", strL "LG TV", strL "HP Printer",
     strL "HP Printer", strL "Epson"]},
  {name := strL "Branch-LA", model := strL "MX75", switches := [mc "MS225-48" 2],
   aps := [mc "MR46" 6], cameras := [mc "MV13" 4], clients := 50,
   required_clients := [strL "Samsung TV", strL "LG TV", strL "HP Printer",
     strL "Canon"]},
  {name := strL "Branch-Seattle", model := strL "MX75",
   switches := [mc "MS225-48" 2], aps := [mc "MR46" 5],
   cameras := [mc "MV23X" 3], clients := 45,
   required_clients := [strL "Samsung TV", strL "HP Printer", strL "Epson"]},
  {name := strL "Branch-Austin", model := strL "MX75",
   switches := [mc "MS225-48" 1], aps := [mc "MR46" 5],
   cameras := [mc "MV13M" 2], clients := 40,
   required_clients := [strL "LG TV", strL "HP Printer"]},
  {name := strL "Branch-Denver", model := strL "MX68",
   switches := [mc "MS225-48" 1], aps := [mc "MR46" 4],
   cameras := [mc "MV13" 2], clients := 35,
   required_clients := [strL "HP Printer", strL "Canon"]},
  {name := strL "Branch-Boston-Medical", model := strL "MX68",
   switches := [mc "MS225-48" 1], aps := [mc "MR46" 4],
   cameras := [mc "MV33M" 2], clients := 40,
   required_clients := [strL "GE Healthcare", strL "GE Healthcare",
     strL "Philips Medical", strL "Philips Medical", strL "HP Printer",
     strL "Epson"]},
  {name := strL "Branch-Atlanta", model := strL "MX68",
   switches := [mc "MS120-24" 1], aps := [mc "MR36" 3], clients := 30,
   required_clients := [strL "HP Printer"]},
  {name := strL "Branch-Miami", model := strL "MX68",
   switches := [mc "MS120-24" 1], aps := [mc "MR36" 3], clients := 30,
   required_clients := [strL "HP Printer", strL "Samsung TV"]},
  {name := strL "Branch-Dallas", model := strL "MX68W",
   switches := [mc "MS120-24" 1], aps := [mc "MR36" 3],
   sensors := [mc "MT10" 2], clients := 30,
   required_clients := [strL "HP Printer"]},
  {name := strL "Branch-Phoenix", model := strL "MX68W", switches := [],
   aps := [mc "MR33" 2], clients := 20},
  {name := strL "Branch-Portland", model := strL "MX68W", switches := [],
   aps := [mc "MR33" 2], clients := 20},
  {name := strL "Branch-Minneapolis", model := strL "MX67", switches := [],
   aps := [mc "MR33" 2], clients := 18},
  {name := strL "Branch-Detroit", model := strL "MX67", switches := [],
   aps := [mc "MR33" 2], clients := 18},
  {name := strL "Branch-Philly", model := strL "MX67", switches := [],
   aps := [mc "MR33" 2], clients := 18},
  {name := strL "Remote-SanDiego", model := strL "MX67C",
   cellular := [cc "MG41"], switches := [], aps := [mc "MR30H" 1],
   clients := 10},
  {name := strL "Remote-Houston", model := strL "MX67C",
   cellular := [cc "MG41"], switches := [], aps := [mc "MR30H" 1],
   clients := 10},
  {name := strL "Remote-Charlotte", model := strL "MX67C",
   cellular := [cc "MG41"], switches := [], aps := [mc "MR30H" 1],
   clients := 8},
  {name := strL "Remote-SaltLake", model := strL "MX67C",
   cellular := [cc "MG41"], switches := [], aps := [], clients := 5},
  {name := strL "Remote-Warehouse", model := strL "MX67C",
   cellular := [cc "MG21"], switches := [], aps := [],
   cameras := [mc "MV72" 6, mc "MV63" 4],
   sensors := [mc "MT14" 8, mc "MT12" 4], clients := 3}]

/-- hub_spoke._get_product_types. -/
def _get_product_types (config : BranchConfig) : List Str :=
  [strL "appliance"] ++
  (if !config.switches.isEmpty then [strL "switch"] else []) ++
  (if !config.aps.isEmpty then [strL "wireless"] else []) ++
  (if !config.cellular.isEmpty then [strL "cellularGateway"] else []) ++
  (if !config.cameras.isEmpty then [strL "camera"] else []) ++
  (if !config.sensors.isEmpty then [strL "sensor"] else [])

def org_id : Str := strL "883652"

def hq_network_id : Str := strL "N_HQ001"

/-- Per-branch output bundle of the branch loop. -/
structure BranchBundle where
  network : Network
  devices : List Device
  availabilities : List DeviceAvailability
  statuses : List DeviceStatus
  vlans : List Vlan
  vpnEntry : VpnEntry
  pool : Option PoolEntry
  netClients : List NetClient
  devClients : DevMap
  deriving DecidableEq, Repr

/-- One iteration of the branch loop of generate_hub_spoke_topology. -/
def hubSpokeBranch (i : Nat) (bc : BranchConfig) (now : Nat) (r : Rng) :
    Except PyErr (BranchBundle × Rng) :=
  let location := US_LOCATIONS.getD ((i + 1) % US_LOCATIONS.length) dfltLocation
  let network_id := strL "N_BR" ++ pad3 (i + 1)
  let branch_network := generate_network network_id org_id bc.name
    (_get_product_types bc) location.tz [strL "spoke", strL "branch"]
    (strL "Branch office in " ++ location.city ++ strL ", " ++ location.state)
  let dev_config : DeviceConfig :=
    { appliances := [{model := some bc.model, name := some (bc.name ++ strL "-MX"), tags := [strL "spoke", strL "security-appliance"]}],
      switches := bc.switches.map (fun sw => {sw with name_pfx := some (bc.name ++ strL "-SW"), tags := [strL "switch", strL "network-infrastructure"]}),
      wireless := bc.aps.map (fun ap => {ap with name_pfx := some (bc.name ++ strL "-AP"), tags := [strL "wireless-ap", strL "network-infrastructure"]}),
      cellular := bc.cellular.map (fun mg => {mg with name := some (bc.name ++ strL "-MG"), tags := [strL "cellular-gateway", strL "wan-backup"]}),
      cameras := bc.cameras.map (fun cam => {cam with name_pfx := some (bc.name ++ strL "-CAM"), tags := [strL "camera", strL "security"]}),
      sensors := bc.sensors.map (fun sen => {sen with name_pfx := some (bc.name ++ strL "-SENSOR"), tags := [strL "sensor", strL "iot"]}) }
  let tripR := generate_devices_for_network network_id org_id location
    dev_config (20 + i) now r
  let r := tripR.2
  let branch_devices := tripR.1.1
  let branch_availabilities := tripR.1.2.1
  let branch_statuses := tripR.1.2.2
  let vlan_types :=
    if 20 < bc.clients then [strL "corporate", strL "guest", strL "voice"]
    else [strL "corporate", strL "guest"]
  match generate_vlans_for_network network_id vlan_types (20 + i * 5) r with
  | .error e => .error e
  | .ok (branch_vlans, r) =>
    let branch_vpn_subnets :=
      branch_vlans.map (fun v => generate_vpn_subnet v.subnet true false)
    let branch_vpn := generate_vpn_config network_id (strL "spoke")
      branch_vpn_subnets (some [{hubId := hq_network_id, useDefaultRoute := true}])
    let pool :=
      if !bc.cellular.isEmpty then
        let cp := generate_cellular_subnet_pool network_id
          (strL "10." ++ natStr (200 + i) ++ strL ".0.0") 16
        some ({network_id := network_id, config := cp} : PoolEntry)
      else none
    let clR := generate_clients_for_network network_id branch_vlans
      bc.clients branch_devices bc.required_clients now r
    let bundle : BranchBundle :=
      { network := branch_network, devices := branch_devices,
        availabilities := branch_availabilities, statuses := branch_statuses,
        vlans := branch_vlans,
        vpnEntry := {network_id := network_id, config := branch_vpn},
        pool := pool, netClients := clR.1.1, devClients := clR.1.2 }
    .ok (bundle, clR.2)

/-- The branch loop over branch_configs, from index i. -/
def hubSpokeBranches (now : Nat) :
    Nat → List BranchConfig → Rng → Except PyErr (List BranchBundle × Rng)
  | _, [], r => .ok ([], r)
  | i, bc :: bcs, r =>
    match hubSpokeBranch i bc now r with
    | .error e => .error e
    | .ok (b, r) =>
      match hubSpokeBranches now (i + 1) bcs r with
      | .error e => .error e
      | .ok (bs, r) => .ok (b :: bs, r)

/-- Python dict.update: existing keys get the new value in place, new
keys are appended in order. -/
def dictUpdate (m new : DevMap) : DevMap :=
  new.foldl
    (fun acc kv =>
      if acc.any (fun e => e.1 == kv.1) then
        acc.map (fun e => if e.1 == kv.1 then kv else e)
      else acc ++ [kv]) m

/-- The HQ device config of generate_hub_spoke_topology. -/
def hq_device_config : DeviceConfig :=
  { appliances := [{model := some (strL "MX450"), name := some (strL "HQ-MX-01"), tags := [strL "hub", strL "security-appliance", strL "datacenter"]}],
    switches := [
      {model := some (strL "MS425-32"), count := some 2, name_pfx := some (strL "HQ-CORE-SW"), tags := [strL "switch", strL "core-layer", strL "datacenter"]},
      {model := some (strL "MS350-48"), count := some 4, name_pfx := some (strL "HQ-DIST-SW"), tags := [strL "switch", strL "distribution-layer"]},
      {model := some (strL "MS225-48"), count := some 8, name_pfx := some (strL "HQ-ACC-SW"), tags := [strL "switch", strL "access-layer"]}],
    wireless := [
      {model := some (strL "MR57"), count := some 20, name_pfx := some (strL "HQ-AP"), tags := [strL "wireless-ap", strL "indoor", strL "wifi6e"]}],
    cellular := [],
    cameras := [
      {model := some (strL "MV33"), count := some 8, name_pfx := some (strL "HQ-CAM-INDOOR"), tags := [strL "camera", strL "indoor", strL "4k"]},
      {model := some (strL "MV63"), count := some 4, name_pfx := some (strL "HQ-CAM-OUTDOOR"), tags := [strL "camera", strL "outdoor", strL "4k"]},
      {model := some (strL "MV13"), count := some 6, name_pfx := some (strL "HQ-CAM-MINI"), tags := [strL "camera", strL "indoor", strL "mini-dome"]}],
    sensors := [
      {model := some (strL "MT14"), count := some 10, name_pfx := some (strL "HQ-DOOR"), tags := [strL "sensor", strL "door"]},
      {model := some (strL "MT10"), count := some 8, name_pfx := some (strL "HQ-TEMP"), tags := [strL "sensor", strL "temperature"]}] }

def hq_required_clients : List Str :=
  [strL "Samsung TV", strL "Samsung TV", strL "Samsung TV", strL "LG TV",
   strL "LG TV", strL "HP Printer", strL "HP Printer", strL "HP Printer",
   strL "Canon", strL "Epson"]

/-- The aggregation tail of generate_hub_spoke_topology (pure). -/
def hubSpokeAssemble (org : Org) (hq_network : Network)
    (hqTrip : List Device × List DeviceAvailability × List DeviceStatus)
    (hq_vlans : List Vlan) (hq_vlan_profile : VlanProfile)
    (hq_vpn : VpnConfig) (hqCl : List NetClient × DevMap)
    (bundles : List BranchBundle) : HubSpokeTopology :=
  let networks := hq_network :: bundles.map (fun b => b.network)
  let devices := hqTrip.1 ++ (bundles.map (fun b => b.devices)).flatten
  let availabilities :=
    hqTrip.2.1 ++ (bundles.map (fun b => b.availabilities)).flatten
  let statuses := hqTrip.2.2 ++ (bundles.map (fun b => b.statuses)).flatten
  let vlans := hq_vlans ++ (bundles.map (fun b => b.vlans)).flatten
  let network_clients :=
    hqCl.1 ++ (bundles.map (fun b => b.netClients)).flatten
  let device_clients :=
    bundles.foldl (fun m b => dictUpdate m b.devClients) hqCl.2
  let vpn_configs :=
    ({network_id := hq_network_id, config := hq_vpn} : VpnEntry) ::
      bundles.map (fun b => b.vpnEntry)
  let pools := bundles.filterMap (fun b => b.pool)
  let theStats : Stats :=
    { organizations := [org].length, networks := networks.length,
      devices := devices.length, vlans := vlans.length,
      clients := network_clients.length }
  { topology_name := strL "hub_spoke",
    description := strL "Enterprise hub-spoke VPN topology with HQ campus and 20 branch offices",
    organizations := [org], networks := networks, devices := devices,
    device_availabilities := availabilities,
    device_statuses := statuses, vlans := vlans,
    vlan_profiles := [hq_vlan_profile],
    network_clients := network_clients,
    device_clients := device_clients, vpn_configs := vpn_configs,
    cellular_subnet_pools := pools,
    stats := theStats }

/-- generate_hub_spoke_topology.  The seed argument of the source selects
the pseudo-random stream; the stream itself (r) and the utcnow value
(now) are the explicit inputs of the embedding. -/
def generate_hub_spoke_topology (r : Rng) (now : Nat) :
    Except PyErr (HubSpokeTopology × Rng) :=
  let orgR := generate_organization org_id (strL "Acme Corporation")
    (strL "North America") r
  let hq_location := US_LOCATIONS.getD 0 dfltLocation
  let hq_network := generate_network hq_network_id org_id (strL "HQ-Campus")
    [strL "appliance", strL "switch", strL "wireless", strL "camera", strL "sensor"]
    hq_location.tz [strL "hub", strL "headquarters", strL "campus"]
    (strL "Corporate headquarters - Hub site for all VPN connections")
  let hqTripR := generate_devices_for_network hq_network_id org_id
    hq_location hq_device_config 10 now orgR.2
  match generate_vlans_for_network hq_network_id
    [strL "corporate", strL "guest", strL "voice", strL "iot",
     strL "management", strL "server"] 10 hqTripR.2 with
  | .error e => .error e
  | .ok (hq_vlans, r) =>
    let hq_vlan_profile := generate_vlan_profile hq_network_id
      (strL "hq-standard") (strL "HQ Standard")
      [strL "Corporate", strL "Guest", strL "Voice"] true
    let hq_vpn_subnets :=
      hq_vlans.map (fun v => generate_vpn_subnet v.subnet true false)
    let hq_vpn := generate_vpn_config hq_network_id (strL "hub")
      hq_vpn_subnets none
    let hqClR := generate_clients_for_network hq_network_id hq_vlans 200
      hqTripR.1.1 hq_required_clients now r
    match hubSpokeBranches now 0 branch_configs hqClR.2 with
    | .error e => .error e
    | .ok (bundles, r) =>
      .ok (hubSpokeAssemble orgR.1 hq_network hqTripR.1 hq_vlans
        hq_vlan_profile hq_vpn hqClR.1 bundles, r)

end HubSpoke

/-! ### Mesh topology (seed_data/topologies/mesh.py) -/

namespace Mesh

open ClientGen DeviceGen NetworkGen
open HubSpoke (VpnEntry PoolEntry Stats)

/-- Python str.capitalize(). -/
def pyCapitalize : Str → Str
  | [] => []
  | c :: cs => Char.toUpper c :: toLowerS cs

structure DcConfig where
  name : Str
  location_idx : Nat
  tier : Str
  deriving DecidableEq, Repr

def DC_CONFIGS : List DcConfig := [
  {name := strL "DC-Primary-East", location_idx := 1, tier := strL "primary"},
  {name := strL "DC-Primary-West", location_idx := 0, tier := strL "primary"},
  {name := strL "DC-Secondary-Central", location_idx := 2, tier := strL "secondary"},
  {name := strL "DC-Secondary-South", location_idx := 5, tier := strL "secondary"},
  {name := strL "DC-Edge-Northwest", location_idx := 4, tier := strL "edge"},
  {name := strL "DC-Edge-Southwest", location_idx := 3, tier := strL "edge"},
  {name := strL "DC-Edge-Northeast", location_idx := 7, tier := strL "edge"},
  {name := strL "DC-Edge-Southeast", location_idx := 9, tier := strL "edge"}]

def dfltDc : DcConfig := {name := [], location_idx := 0, tier := []}

structure MeshCounts where
  mx : Nat
  core : Nat
  dist : Nat
  acc : Nat
  ap : Nat
  mg : Nat
  clientCount : Nat
  deriving DecidableEq, Repr

/-- The tier-dependent device_counts table. -/
def meshDeviceCounts (tier : Str) : MeshCounts :=
  if tier == strL "primary" then
    {mx := 2, core := 4, dist := 8, acc := 16, ap := 30, mg := 2, clientCount := 300}
  else if tier == strL "secondary" then
    {mx := 2, core := 2, dist := 4, acc := 8, ap := 15, mg := 1, clientCount := 180}
  else
    {mx := 1, core := 1, dist := 2, acc := 4, ap := 8, mg := 1, clientCount := 100}

def org_id : Str := strL "994763"

structure DcBundle where
  network_id : Str
  network : Network
  devices : List Device
  availabilities : List DeviceAvailability
  vlans : List Vlan
  profile : VlanProfile
  pool : PoolEntry
  netClients : List NetClient
  devClients : DevMap
  deriving DecidableEq, Repr

/-- One iteration of the DC loop of generate_mesh_topology.  The source
unpacks the 3-tuple returned by generate_devices_for_network into two
variables, which raises ValueError at runtime (unpack2of3). -/
def meshDc (i : Nat) (dc : DcConfig) (now : Nat) (r : Rng) :
    Except PyErr (DcBundle × Rng) :=
  let location := US_LOCATIONS.getD dc.location_idx dfltLocation
  let network_id := strL "N_DC" ++ pad3 (i + 1)
  let counts := meshDeviceCounts dc.tier
  let dc_network := generate_network network_id org_id dc.name
    [strL "appliance", strL "switch", strL "wireless", strL "cellularGateway"]
    location.tz [strL "datacenter", dc.tier, strL "region-" ++ location.state]
    (pyCapitalize dc.tier ++ strL " data center in " ++ location.city ++
      strL ", " ++ location.state)
  let dev_config : DeviceConfig :=
    { appliances := (List.range counts.mx).map
        (fun j => {model := some (strL "MX450"), name := some (dc.name ++ strL "-MX-" ++ pad2 (j + 1)), tags := []}),
      switches := [
        {model := some (strL "MS425-32"), count := some counts.core, name_pfx := some (dc.name ++ strL "-CORE"), tags := [strL "core"]},
        {model := some (strL "MS350-48"), count := some counts.dist, name_pfx := some (dc.name ++ strL "-DIST"), tags := [strL "distribution"]},
        {model := some (strL "MS250-48"), count := some counts.acc, name_pfx := some (dc.name ++ strL "-ACC"), tags := [strL "access"]}],
      wireless := [
        {model := some (strL "MR57"), count := some counts.ap, name_pfx := some (dc.name ++ strL "-AP"), tags := [strL "warehouse"]}],
      cellular := (List.range counts.mg).map
        (fun j => {model := some (strL "MG41"), name := some (dc.name ++ strL "-MG-" ++ pad2 (j + 1)), tags := []}),
      cameras := [], sensors := [] }
  let (trip, r) := generate_devices_for_network network_id org_id location
    dev_config (10 + i * 10) now r
  match unpack2of3 trip with
  | .error e => .error e
  | .ok devsAvails =>
    let dc_devices := devsAvails.1
    let dc_availabilities := devsAvails.2
    match generate_vlans_for_network network_id
      [strL "corporate", strL "server", strL "management", strL "voice",
       strL "iot", strL "guest"] (i * 20) r with
    | .error e => .error e
    | .ok (dc_vlans, r) =>
      let dc_profile := generate_vlan_profile network_id
        (strL "dc-" ++ dc.tier)
        (strL "DC " ++ pyCapitalize dc.tier ++ strL " Profile")
        [strL "Servers", strL "Management", strL "Corporate"] true
      let cp := generate_cellular_subnet_pool network_id
        (strL "10." ++ natStr (220 + i) ++ strL ".0.0") 16
      let (cl, r) := generate_clients_for_network network_id dc_vlans
        counts.clientCount dc_devices [] now r
      let bundle : DcBundle :=
        { network_id := network_id, network := dc_network,
          devices := dc_devices, availabilities := dc_availabilities,
          vlans := dc_vlans, profile := dc_profile,
          pool := {network_id := network_id, config := cp},
          netClients := cl.1, devClients := cl.2 }
      .ok (bundle, r)

/-- The DC loop over DC_CONFIGS, from index i. -/
def meshDcLoop (now : Nat) :
    Nat → List DcConfig → Rng → Except PyErr (List DcBundle × Rng)
  | _, [], r => .ok ([], r)
  | i, dc :: dcs, r =>
    match meshDc i dc now r with
    | .error e => .error e
    | .ok (b, r) =>
      match meshDcLoop now (i + 1) dcs r with
      | .error e => .error e
      | .ok (bs, r) => .ok (b :: bs, r)

/-- The network ids the DC loop would assign (line 74 of mesh.py). -/
def meshNetworkIds : List Str :=
  (List.range DC_CONFIGS.length).map (fun i => strL "N_DC" ++ pad3 (i + 1))

/-- The full-mesh VPN phase of generate_mesh_topology (lines 192-227):
primary-tier sites get hub mode, all other sites get spoke mode with all
primary sites as hubs. -/
def meshVpnPhaseFor (network_ids : List Str) (vlans : List Vlan) :
    List VpnEntry :=
  network_ids.enum.map (fun p =>
    let i := p.1
    let network_id := p.2
    let net_vlans := vlans.filter (fun v => v.networkId == network_id)
    let vpn_subnets := net_vlans.map (fun v => generate_vpn_subnet v.subnet true false)
    let _other_network_ids := network_ids.filter (fun nid => nid != network_id)
    let tier := (DC_CONFIGS.getD i dfltDc).tier
    if tier == strL "primary" then
      {network_id := network_id,
       config := generate_vpn_config network_id (strL "hub") vpn_subnets none}
    else
      let primary_hubs := network_ids.enum.filterMap (fun q =>
        if (DC_CONFIGS.getD q.1 dfltDc).tier == strL "primary" then
          some ({hubId := q.2, useDefaultRoute := false} : HubRef)
        else none)
      {network_id := network_id,
       config := generate_vpn_config network_id (strL "spoke") vpn_subnets
         (some primary_hubs)})

/-- The aggregate result dict of generate_mesh_topology (it has no
device_statuses key). -/
structure MeshTopology where
  topology_name : Str
  description : Str
  organizations : List Org
  networks : List Network
  devices : List Device
  device_availabilities : List DeviceAvailability
  vlans : List Vlan
  vlan_profiles : List VlanProfile
  network_clients : List NetClient
  device_clients : DevMap
  vpn_configs : List VpnEntry
  cellular_subnet_pools : List PoolEntry
  stats : Stats
  deriving DecidableEq, Repr

/-- The aggregation tail of generate_mesh_topology (pure). -/
def meshAssemble (org : Org) (bundles : List DcBundle) : MeshTopology :=
  let network_ids := bundles.map (fun b => b.network_id)
  let networks := bundles.map (fun b => b.network)
  let devices := (bundles.map (fun b => b.devices)).flatten
  let availabilities := (bundles.map (fun b => b.availabilities)).flatten
  let vlans := (bundles.map (fun b => b.vlans)).flatten
  let profiles := bundles.map (fun b => b.profile)
  let pools := bundles.map (fun b => b.pool)
  let network_clients := (bundles.map (fun b => b.netClients)).flatten
  let device_clients :=
    bundles.foldl (fun m b => HubSpoke.dictUpdate m b.devClients) []
  let vpn_configs := meshVpnPhaseFor network_ids vlans
  let theStats : Stats :=
    { organizations := [org].length, networks := networks.length,
      devices := devices.length, vlans := vlans.length,
      clients := network_clients.length }
  { topology_name := strL "mesh",
    description := strL "Regional data center mesh VPN topology with primary/secondary/edge tiers",
    organizations := [org], networks := networks, devices := devices,
    device_availabilities := availabilities, vlans := vlans,
    vlan_profiles := profiles, network_clients := network_clients,
    device_clients := device_clients, vpn_configs := vpn_configs,
    cellular_subnet_pools := pools, stats := theStats }

/-- generate_mesh_topology. -/
def generate_mesh_topology (r : Rng) (now : Nat) :
    Except PyErr (MeshTopology × Rng) :=
  let orgR := generate_organization org_id (strL "Global DataCorp")
    (strL "North America") r
  match meshDcLoop now 0 DC_CONFIGS orgR.2 with
  | .error e => .error e
  | .ok (bundles, r) => .ok (meshAssemble orgR.1 bundles, r)

end Mesh

/-! ### Multi-org topology (seed_data/topologies/multi_org.py) -/

namespace MultiOrg

open ClientGen DeviceGen NetworkGen
open HubSpoke (VpnEntry PoolEntry Stats)

structure NetCfg where
  name : Str
  ntype : Str
  location_idx : Nat
  deriving DecidableEq, Repr

structure OrgCfg where
  org_id : Str
  name : Str
  industry : Str
  networks : List NetCfg
  deriving DecidableEq, Repr

def ORG_CONFIGS : List OrgCfg := [
  {org_id := strL "100001", name := strL "TechStart Inc",
   industry := strL "Technology Startup", networks := [
     {name := strL "TechStart-HQ", ntype := strL "headquarters", location_idx := 0},
     {name := strL "TechStart-Dev", ntype := strL "office", location_idx := 4},
     {name := strL "TechStart-Sales-East", ntype := strL "branch", location_idx := 1},
     {name := strL "TechStart-Sales-West", ntype := strL "branch", location_idx := 3}]},
  {org_id := strL "100002", name := strL "HealthPlus Medical",
   industry := strL "Healthcare", networks := [
     {name := strL "HealthPlus-Hospital", ntype := strL "headquarters", location_idx := 2},
     {name := strL "HealthPlus-Clinic-A", ntype := strL "branch", location_idx := 8},
     {name := strL "HealthPlus-Clinic-B", ntype := strL "branch", location_idx := 9},
     {name := strL "HealthPlus-Admin", ntype := strL "office", location_idx := 10}]},
  {org_id := strL "100003", name := strL "RetailMax Stores",
   industry := strL "Retail", networks := [
     {name := strL "RetailMax-Corporate", ntype := strL "headquarters", location_idx := 5},
     {name := strL "RetailMax-Store-101", ntype := strL "retail", location_idx := 11},
     {name := strL "RetailMax-Store-102", ntype := strL "retail", location_idx := 12},
     {name := strL "RetailMax-Warehouse", ntype := strL "warehouse", location_idx := 6}]},
  {org_id := strL "100004", name := strL "EduLearn Academy",
   industry := strL "Education", networks := [
     {name := strL "EduLearn-Main-Campus", ntype := strL "headquarters", location_idx := 7},
     {name := strL "EduLearn-Library", ntype := strL "office", location_idx := 7},
     {name := strL "EduLearn-Dorms", ntype := strL "residential", location_idx := 7},
     {name := strL "EduLearn-Athletics", ntype := strL "branch", location_idx := 7}]},
  {org_id := strL "100005", name := strL "FinanceFirst Bank",
   industry := strL "Financial Services", networks := [
     {name := strL "FinanceFirst-HQ", ntype := strL "headquarters", location_idx := 1},
     {name := strL "FinanceFirst-Branch-1", ntype := strL "branch", location_idx := 13},
     {name := strL "FinanceFirst-Branch-2", ntype := strL "branch", location_idx := 14},
     {name := strL "FinanceFirst-DC", ntype := strL "datacenter", location_idx := 15}]}]

structure TypeConfig where
  appliances : List ApplianceCfg
  switches : List CountCfg
  wireless : List CountCfg
  cellular : List CellCfg := []
  clients : Nat
  deriving DecidableEq, Repr

def ac (m : String) : ApplianceCfg := {model := some (strL m), name := none, tags := []}

def NETWORK_TYPE_CONFIGS : List (Str × TypeConfig) := [
  (strL "headquarters",
   {appliances := [ac "MX85"],
    switches := [HubSpoke.mc "MS350-48" 2, HubSpoke.mc "MS225-48" 4],
    wireless := [HubSpoke.mc "MR56" 12], clients := 150}),
  (strL "office",
   {appliances := [ac "MX68"], switches := [HubSpoke.mc "MS225-48" 2],
    wireless := [HubSpoke.mc "MR46" 6], clients := 60}),
  (strL "branch",
   {appliances := [ac "MX67"], switches := [HubSpoke.mc "MS120-24" 1],
    wireless := [HubSpoke.mc "MR36" 3], clients := 30}),
  (strL "retail",
   {appliances := [ac "MX68W"], switches := [HubSpoke.mc "MS120-8" 1],
    wireless := [HubSpoke.mc "MR33" 4], clients := 40}),
  (strL "warehouse",
   {appliances := [ac "MX75"], switches := [HubSpoke.mc "MS225-48" 3],
    wireless := [HubSpoke.mc "MR57" 15], cellular := [HubSpoke.cc "MG41"],
    clients := 80}),
  (strL "residential",
   {appliances := [ac "MX68W"], switches := [HubSpoke.mc "MS225-48" 2],
    wireless := [HubSpoke.mc "MR46" 20], clients := 200}),
  (strL "datacenter",
   {appliances := [ac "MX450"],
    switches := [HubSpoke.mc "MS425-32" 2, HubSpoke.mc "MS350-48" 4],
    wireless := [HubSpoke.mc "MR57" 4], cellular := [HubSpoke.cc "MG41"],
    clients := 50})]

def branchTypeConfig : TypeConfig :=
  {appliances := [ac "MX67"], switches := [HubSpoke.mc "MS120-24" 1],
   wireless := [HubSpoke.mc "MR36" 3], clients := 30}

structure NetBundle where
  network_id : Str
  network : Network
  devices : List Device
  availabilities : List DeviceAvailability
  vlans : List Vlan
  pool : Option PoolEntry
  netClients : List NetClient
  devClients : DevMap
  isHq : Bool
  deriving DecidableEq, Repr

/-- One network of one org in generate_multi_org_topology.  As in the
mesh assembler, the 3-tuple from generate_devices_for_network is
unpacked into two variables, so this raises (unpack2of3). -/
def multiOrgNetwork (orgCfg : OrgCfg) (ncfg : NetCfg) (network_counter : Nat)
    (now : Nat) (r : Rng) : Except PyErr (NetBundle × Rng) :=
  let location := US_LOCATIONS.getD (ncfg.location_idx % US_LOCATIONS.length)
    dfltLocation
  let network_id := strL "N_" ++ orgCfg.org_id ++ '_' :: pad3 network_counter
  let type_config := (lookupAssoc NETWORK_TYPE_CONFIGS ncfg.ntype).getD branchTypeConfig
  let product_types :=
    [strL "appliance"] ++
    (if !type_config.switches.isEmpty then [strL "switch"] else []) ++
    (if !type_config.wireless.isEmpty then [strL "wireless"] else []) ++
    (if !type_config.cellular.isEmpty then [strL "cellularGateway"] else [])
  let network := generate_network network_id orgCfg.org_id ncfg.name
    product_types location.tz
    [(toLowerS orgCfg.industry).map (fun ch => if ch = ' ' then '-' else ch), ncfg.ntype]
    (orgCfg.name ++ strL " - " ++ ncfg.ntype ++ strL " in " ++ location.city)
  let dev_config : DeviceConfig :=
    { appliances := type_config.appliances.map
        (fun a => {a with name := some (ncfg.name ++ strL "-MX")}),
      switches := type_config.switches.map
        (fun s => {s with name_pfx := some (ncfg.name ++ strL "-SW")}),
      wireless := type_config.wireless.map
        (fun w => {w with name_pfx := some (ncfg.name ++ strL "-AP")}),
      cellular := type_config.cellular.map
        (fun c => {c with name := some (ncfg.name ++ strL "-MG")}),
      cameras := [], sensors := [] }
  let (trip, r) := generate_devices_for_network network_id orgCfg.org_id
    location dev_config network_counter now r
  match unpack2of3 trip with
  | .error e => .error e
  | .ok devsAvails =>
    let net_devices := devsAvails.1
    let net_availabilities := devsAvails.2
    let vlan_types :=
      if ncfg.ntype == strL "headquarters" || ncfg.ntype == strL "datacenter" then
        [strL "corporate", strL "guest", strL "voice", strL "server", strL "management"]
      else if ncfg.ntype == strL "residential" then
        [strL "corporate", strL "guest", strL "iot"]
      else if ncfg.ntype == strL "retail" then
        [strL "corporate", strL "guest", strL "iot"]
      else [strL "corporate", strL "guest"]
    match generate_vlans_for_network network_id vlan_types
      (network_counter * 5) r with
    | .error e => .error e
    | .ok (net_vlans, r) =>
      let pool :=
        if !type_config.cellular.isEmpty then
          let cp := generate_cellular_subnet_pool network_id
            (strL "10." ++ natStr (230 + network_counter) ++ strL ".0.0") 16
          some ({network_id := network_id, config := cp} : PoolEntry)
        else none
      let (cl, r) := generate_clients_for_network network_id net_vlans
        type_config.clients net_devices [] now r
      let bundle : NetBundle :=
        { network_id := network_id, network := network, devices := net_devices,
          availabilities := net_availabilities, vlans := net_vlans,
          pool := pool, netClients := cl.1, devClients := cl.2,
          isHq := ncfg.ntype == strL "headquarters" }
      .ok (bundle, r)

/-- The networks loop of one org, threading the global network counter. -/
def multiOrgNetworksLoop (orgCfg : OrgCfg) (now : Nat) :
    List NetCfg → Nat → Rng → Except PyErr ((List NetBundle × Nat) × Rng)
  | [], counter, r => .ok (([], counter), r)
  | nc :: ncs, counter, r =>
    match multiOrgNetwork orgCfg nc (counter + 1) now r with
    | .error e => .error e
    | .ok (b, r) =>
      match multiOrgNetworksLoop orgCfg now ncs (counter + 1) r with
      | .error e => .error e
      | .ok (p, r) => .ok ((b :: p.1, p.2), r)

/-- The per-org VPN phase (hub = the last headquarters network of the
org; every other network is a spoke towards it). -/
def multiOrgVpnFor (bundles : List NetBundle) (vlansAcc : List Vlan) :
    List VpnEntry :=
  let hq_network_id :=
    bundles.foldl (fun acc b => if b.isHq then some b.network_id else acc) none
  bundles.map (fun b =>
    let net_vlans := vlansAcc.filter (fun v => v.networkId == b.network_id)
    let vpn_subnets := net_vlans.map (fun v => generate_vpn_subnet v.subnet true false)
    if some b.network_id == hq_network_id then
      {network_id := b.network_id,
       config := generate_vpn_config b.network_id (strL "hub") vpn_subnets none}
    else
      let hubs :=
        match hq_network_id with
        | some hq => [({hubId := hq, useDefaultRoute := true} : HubRef)]
        | none => []
      {network_id := b.network_id,
       config := generate_vpn_config b.network_id (strL "spoke") vpn_subnets
         (some hubs)})

structure OrgOut where
  org : Org
  bundles : List NetBundle
  vpnEntries : List VpnEntry
  networkIds : List Str
  deriving DecidableEq, Repr

/-- The orgs loop of generate_multi_org_topology. -/
def multiOrgLoop (now : Nat) :
    List OrgCfg → Nat → List Vlan → Rng →
    Except PyErr ((List OrgOut × Nat) × Rng)
  | [], counter, _, r => .ok (([], counter), r)
  | oc :: ocs, counter, vlansAcc, r =>
    let orgR := generate_organization oc.org_id oc.name
      (strL "North America") r
    let org := orgR.1
    match multiOrgNetworksLoop oc now oc.networks counter orgR.2 with
    | .error e => .error e
    | .ok (p, r) =>
      let bundles := p.1
      let counter2 := p.2
      let vlansAcc2 := vlansAcc ++ (bundles.map (fun b => b.vlans)).flatten
      let vpnEntries := multiOrgVpnFor bundles vlansAcc2
      let out : OrgOut :=
        { org := org, bundles := bundles, vpnEntries := vpnEntries,
          networkIds := bundles.map (fun b => b.network_id) }
      match multiOrgLoop now ocs counter2 vlansAcc2 r with
      | .error e => .error e
      | .ok (q, r) => .ok ((out :: q.1, q.2), r)

/-- The aggregate result dict of generate_multi_org_topology (no
device_statuses key). -/
structure MultiOrgTopology where
  topology_name : Str
  description : Str
  organizations : List Org
  networks : List Network
  devices : List Device
  device_availabilities : List DeviceAvailability
  vlans : List Vlan
  vlan_profiles : List VlanProfile
  network_clients : List NetClient
  device_clients : DevMap
  vpn_configs : List VpnEntry
  cellular_subnet_pools : List PoolEntry
  stats : Stats
  deriving DecidableEq, Repr

/-- The aggregation tail of generate_multi_org_topology (pure). -/
def multiOrgAssemble (outs : List OrgOut) : MultiOrgTopology :=
  let organizations := outs.map (fun o => o.org)
  let allBundles := (outs.map (fun o => o.bundles)).flatten
  let networks := allBundles.map (fun b => b.network)
  let devices := (allBundles.map (fun b => b.devices)).flatten
  let availabilities := (allBundles.map (fun b => b.availabilities)).flatten
  let vlans := (allBundles.map (fun b => b.vlans)).flatten
  let network_clients := (allBundles.map (fun b => b.netClients)).flatten
  let device_clients :=
    allBundles.foldl (fun m b => HubSpoke.dictUpdate m b.devClients) []
  let vpn_configs := (outs.map (fun o => o.vpnEntries)).flatten
  let pools := allBundles.filterMap (fun b => b.pool)
  let vlan_profiles :=
    (ORG_CONFIGS.zip outs).map (fun oz =>
      oz.2.networkIds.map (fun nid =>
        generate_vlan_profile nid (strL "standard-" ++ oz.1.org_id)
          (oz.1.name ++ strL " Standard") [strL "Corporate", strL "Guest"]
          true))
  let theStats : Stats :=
    { organizations := organizations.length, networks := networks.length,
      devices := devices.length, vlans := vlans.length,
      clients := network_clients.length }
  { topology_name := strL "multi_org",
    description := strL "Multi-organization MSP topology with 5 customer orgs and 20 total networks",
    organizations := organizations, networks := networks,
    devices := devices, device_availabilities := availabilities,
    vlans := vlans, vlan_profiles := vlan_profiles.flatten,
    network_clients := network_clients, device_clients := device_clients,
    vpn_configs := vpn_configs, cellular_subnet_pools := pools,
    stats := theStats }

/-- generate_multi_org_topology. -/
def generate_multi_org_topology (r : Rng) (now : Nat) :
    Except PyErr (MultiOrgTopology × Rng) :=
  match multiOrgLoop now ORG_CONFIGS 0 [] r with
  | .error e => .error e
  | .ok (p, r) => .ok (multiOrgAssemble p.1, r)

end MultiOrg

/-! ### Auxiliary definitions used by the verification -/

/-- The ValueError produced by unpacking a 3-tuple into two targets. -/
def unpackValueError : PyErr :=
  .valueError (strL "too many values to unpack (expected 2)")

/-- The VLAN record used by the C6 counterexample run. -/
def c6Vlan : Vlan :=
  {id := strL "10", interfaceId := strL "1234567890123",
   networkId := strL "N1", name := strL "Corporate",
   applianceIp := strL "192.168.10.1", subnet := strL "192.168.10.0/24",
   fixedIpAssignments := [], reservedIpRanges := [],
   dnsNameservers := strL "upstream_dns",
   dhcpHandling := strL "Run a DHCP server", dhcpLeaseTime := strL "1 day",
   dhcpBootOptionsEnabled := false, dhcpOptions := [],
   vpnNatSubnet := strL "192.168.10.0/24", mandatoryDhcpEnabled := false,
   ipv6Enabled := false, dhcpBootFilename := none,
   dhcpBootNextServer := none, dhcpRelayServerIps := [],
   groupPolicyId := none, templateVlanType := strL "same",
   cidr := strL "192.168.10.0/24", mask := 24}

/-- The switch record used by the C6 counterexample run. -/
def c6Switch : Device :=
  {serial := strL "Q2AA-BBBB-CCCC", name := strL "SW-01",
   mac := strL "00:18:0a:00:00:01", networkId := strL "N1",
   organizationId := strL "883652", model := strL "MS225-48",
   productType := strL "switch", firmware := strL "MS 15.21",
   lanIp := strL "10.10.0.1", tags := [], lat := 377749, lng := -1224194,
   address := strL "100 San Francisco St", notes := none,
   url := strL "https://mock.meraki.com/devices/Q2AA-BBBB-CCCC/manage",
   configurationUpdatedAt := 0, details := [], wan1Ip := none,
   wan2Ip := none, imei := none}

def countCfgTotal (cfgs : List DeviceGen.CountCfg) : Nat :=
  (cfgs.map (fun c => c.count.getD 1)).sum

def totalDeviceCount (cfg : DeviceGen.DeviceConfig) : Nat :=
  cfg.appliances.length + countCfgTotal cfg.switches +
    countCfgTotal cfg.wireless + cfg.cellular.length

def allowedProductType (d : Device) : Bool :=
  d.productType == strL "appliance" || d.productType == strL "switch" ||
    d.productType == strL "wireless" || d.productType == strL "cellularGateway"

/-- Membership of an ip string in the /24 CIDR block of a subnet string of
the canonical x.y.z.0/24 shape: the subnet is pre.0/24 and the ip is
pre.x for a last octet x of at most 255. -/
def Mem24 (ip subnet : Str) : Prop :=
  ∃ pre x, x ≤ 255 ∧ subnet = pre ++ strL ".0/24" ∧ ip = pre ++ '.' :: natStr x

def c2VlanW : Vlan :=
  {ClientGen.fallbackVlan with id := strL "100", subnet := NetworkGen.mkSubnetStr 5}

/-! ### Lemmas about the string toolkit -/

theorem natStrAux_congr : ∀ n f1 f2, n < f1 → n < f2 →
    natStrAux f1 n = natStrAux f2 n := by
  intro n
  induction n using Nat.strong_induction_on with
  | _ n ih =>
    intro f1 f2 h1 h2
    match f1, f2 with
    | fa + 1, fb + 1 =>
      rw [natStrAux, natStrAux]
      by_cases hn : n < 10
      · simp [hn]
      · simp only [hn, if_false]
        have hd : n / 10 < n := Nat.div_lt_self (by omega) (by omega)
        rw [ih (n / 10) hd fa (n / 10 + 1) (by omega) (by omega),
          ih (n / 10) hd fb (n / 10 + 1) (by omega) (by omega)]

/-- Two-digit zero-padded decimal, as Python f-string 02d. -/

theorem natStr_lt10 {n : Nat} (h : n < 10) : natStr n = [digitChar n] := by
  rw [natStr, natStrAux]
  simp [h]

theorem natStr_ge10 {n : Nat} (h : ¬ n < 10) :
    natStr n = natStr (n / 10) ++ [digitChar (n % 10)] := by
  rw [natStr, natStrAux]
  simp only [h, if_false]
  have hd : n / 10 < n := Nat.div_lt_self (by omega) (by omega)
  rw [natStrAux_congr (n / 10) n (n / 10 + 1) hd (by omega)]
  rfl

theorem natStr_ne_nil (n : Nat) : natStr n ≠ [] := by
  by_cases h : n < 10
  · rw [natStr_lt10 h]
    simp
  · rw [natStr_ge10 h]
    simp

theorem natStr_mem_digit {n : Nat} {c : Char} (h : c ∈ natStr n) :
    ∃ d, d < 10 ∧ c = digitChar d := by
  induction n using Nat.strong_induction_on with
  | _ n ih =>
    by_cases hn : n < 10
    · rw [natStr_lt10 hn] at h
      exact ⟨n, hn, by simpa using h⟩
    · rw [natStr_ge10 hn] at h
      rcases List.mem_append.mp h with h1 | h2
      · exact ih (n / 10) (Nat.div_lt_self (by omega) (by omega)) h1
      · exact ⟨n % 10, Nat.mod_lt _ (by omega), by simpa using h2⟩

theorem digitChar_ne_dot : ∀ d, d < 10 → digitChar d ≠ '.' := by decide

theorem digitChar_ne_slash : ∀ d, d < 10 → digitChar d ≠ '/' := by decide

theorem digitChar_inj10 : ∀ a, a < 10 → ∀ b, b < 10 →
    digitChar a = digitChar b → a = b := by decide

theorem natStr_no_dot {n : Nat} {c : Char} (h : c ∈ natStr n) : c ≠ '.' := by
  obtain ⟨d, hd, rfl⟩ := natStr_mem_digit h
  exact digitChar_ne_dot d hd

theorem natStr_no_slash {n : Nat} {c : Char} (h : c ∈ natStr n) : c ≠ '/' := by
  obtain ⟨d, hd, rfl⟩ := natStr_mem_digit h
  exact digitChar_ne_slash d hd

theorem natStr_inj {m n : Nat} (h : natStr m = natStr n) : m = n := by
  induction m using Nat.strong_induction_on generalizing n with
  | _ m ih =>
    by_cases hm : m < 10 <;> by_cases hn : n < 10
    · rw [natStr_lt10 hm, natStr_lt10 hn] at h
      exact digitChar_inj10 m hm n hn (by simpa using h)
    · rw [natStr_lt10 hm, natStr_ge10 hn] at h
      exfalso
      have h2 := congrArg List.length h
      have h3 : 0 < (natStr (n / 10)).length :=
        List.length_pos.mpr (natStr_ne_nil (n / 10))
      simp only [List.length_cons, List.length_nil, List.length_append] at h2
      omega
    · rw [natStr_ge10 hm, natStr_lt10 hn] at h
      exfalso
      have h2 := congrArg List.length h
      have h3 : 0 < (natStr (m / 10)).length :=
        List.length_pos.mpr (natStr_ne_nil (m / 10))
      simp only [List.length_cons, List.length_nil, List.length_append] at h2
      omega
    · rw [natStr_ge10 hm, natStr_ge10 hn] at h
      have h2 := congrArg List.reverse h
      simp only [List.reverse_append, List.reverse_cons, List.reverse_nil,
        List.nil_append, List.singleton_append, List.cons.injEq] at h2
      obtain ⟨hmod, hrev⟩ := h2
      have hdiv : m / 10 = n / 10 :=
        ih (m / 10) (Nat.div_lt_self (by omega) (by omega))
          (List.reverse_injective hrev)
      have hmod2 : m % 10 = n % 10 :=
        digitChar_inj10 _ (Nat.mod_lt _ (by omega)) _ (Nat.mod_lt _ (by omega)) hmod
      omega

theorem pySplitC_ne_nil (c : Char) (s : Str) : pySplitC c s ≠ [] := by
  cases s with
  | nil => simp [pySplitC]
  | cons x xs =>
    rw [pySplitC]
    split <;> simp

theorem pySplitC_no_sep {c : Char} {s : Str} (h : ∀ x ∈ s, x ≠ c) :
    pySplitC c s = [s] := by
  induction s with
  | nil => rfl
  | cons x xs ih =>
    rw [pySplitC]
    have hx : ¬ (x = c) := h x (by simp)
    simp only [hx, if_false]
    rw [ih (fun y hy => h y (by simp [hy]))]
    rfl

theorem pySplitC_append {c : Char} {a b : Str} (h : ∀ x ∈ a, x ≠ c) :
    pySplitC c (a ++ c :: b) = a :: pySplitC c b := by
  induction a with
  | nil => simp [pySplitC]
  | cons x xs ih =>
    have hx : ¬ (x = c) := h x (by simp)
    rw [List.cons_append, pySplitC]
    simp only [hx, if_false]
    rw [ih (fun y hy => h y (by simp [hy]))]
    rfl

theorem dropWhile_all_append {α : Type} (p : α → Bool) {l : List α} (t : List α)
    (h : ∀ x ∈ l, p x = true) : (l ++ t).dropWhile p = t.dropWhile p := by
  induction l with
  | nil => rfl
  | cons x xs ih =>
    rw [List.cons_append, List.dropWhile_cons]
    simp only [h x (by simp), if_true]
    exact ih (fun y hy => h y (by simp [hy]))

theorem pyRSplitHead_append {c : Char} {a b : Str} (h : ∀ x ∈ b, x ≠ c) :
    pyRSplitHead c (a ++ c :: b) = a := by
  have hc : containsC (a ++ c :: b) c = true := by
    simp [containsC]
  rw [pyRSplitHead, hc, if_pos rfl]
  rw [List.reverse_append, List.reverse_cons]
  have hrev : ∀ x ∈ b.reverse, (x != c) = true := by
    intro x hx
    simpa using h x (List.mem_reverse.mp hx)
  rw [List.append_assoc, dropWhile_all_append _ _ hrev, List.singleton_append,
    List.dropWhile_cons]
  simp

/-- Decompose equality of strings of the shape a ++ c :: b when the a-parts
are c-free: this is injectivity of the last-separator rendering. -/
theorem sep_decomp {c : Char} {a1 b1 a2 b2 : Str}
    (h1 : ∀ x ∈ a1, x ≠ c) (h2 : ∀ x ∈ a2, x ≠ c)
    (h : a1 ++ c :: b1 = a2 ++ c :: b2) : a1 = a2 ∧ b1 = b2 := by
  induction a1 generalizing a2 with
  | nil =>
    cases a2 with
    | nil => simpa using h
    | cons y ys =>
      exfalso
      have : c = y := by simpa using congrArg (fun l => l.headD c) h
      exact h2 y (by simp) this.symm
  | cons x xs ih =>
    cases a2 with
    | nil =>
      exfalso
      have : x = c := by simpa using congrArg (fun l => l.headD c) h
      exact h1 x (by simp) this
    | cons y ys =>
      simp only [List.cons_append, List.cons.injEq] at h
      obtain ⟨rfl, h⟩ := h
      obtain ⟨ha, hb⟩ := ih (fun z hz => h1 z (by simp [hz]))
        (fun z hz => h2 z (by simp [hz])) h
      exact ⟨by rw [ha], hb⟩

/-! ### Helper lemmas -/



theorem generate_device_fields (nid oid pt model name : Str) (loc : Location)
    (octet idx : Nat) (tags : List Str) (now : Nat) (r : Rng) :
    (DeviceGen.generate_device nid oid pt model name loc octet idx tags now r).1.lanIp =
      DeviceGen._generate_lan_ip octet idx ∧
    (DeviceGen.generate_device nid oid pt model name loc octet idx tags now r).1.productType = pt := by
  unfold DeviceGen.generate_device
  refine ⟨?_, ?_⟩ <;>
  · dsimp only
    split <;> (try split) <;> (try split) <;> rfl

theorem generate_device_lanIp (nid oid pt model name : Str) (loc : Location)
    (octet idx : Nat) (tags : List Str) (now : Nat) (r : Rng) :
    (DeviceGen.generate_device nid oid pt model name loc octet idx tags now r).1.lanIp =
      DeviceGen._generate_lan_ip octet idx :=
  (generate_device_fields nid oid pt model name loc octet idx tags now r).1

theorem generate_device_productType (nid oid pt model name : Str) (loc : Location)
    (octet idx : Nat) (tags : List Str) (now : Nat) (r : Rng) :
    (DeviceGen.generate_device nid oid pt model name loc octet idx tags now r).1.productType = pt :=
  (generate_device_fields nid oid pt model name loc octet idx tags now r).2

theorem genAppliancesLoop_spec (nid oid : Str) (loc : Location) (octet now : Nat) :
    ∀ (cfgs : List DeviceGen.ApplianceCfg) (idx : Nat) (r : Rng),
    (DeviceGen.genAppliancesLoop nid oid loc octet now cfgs idx r).1.devices.map (fun d => d.lanIp) =
      (List.range' idx cfgs.length).map (DeviceGen._generate_lan_ip octet) ∧
    (DeviceGen.genAppliancesLoop nid oid loc octet now cfgs idx r).1.nextIndex = idx + cfgs.length ∧
    (DeviceGen.genAppliancesLoop nid oid loc octet now cfgs idx r).1.devices.all
      (fun d => d.productType == strL "appliance") = true := by
  intro cfgs
  induction cfgs with
  | nil =>
    intro idx r
    simp [DeviceGen.genAppliancesLoop]
  | cons c cs ih =>
    intro idx r
    simp only [DeviceGen.genAppliancesLoop, List.map_cons, List.length_cons,
      List.all_cons, List.range'_succ]
    refine ⟨?_, ?_, ?_⟩
    · rw [generate_device_lanIp, (ih (idx + 1) _).1]
    · rw [(ih (idx + 1) _).2.1]
      omega
    · rw [generate_device_productType]
      simp [(ih (idx + 1) _).2.2]


theorem genCountedLoop_spec (nid oid : Str) (loc : Location) (octet now : Nat)
    (pt model name_pfx : Str) (tags : List Str) :
    ∀ (cnt i idx : Nat) (r : Rng),
    (DeviceGen.genCountedLoop nid oid loc octet now pt model name_pfx tags i cnt idx r).1.devices.map (fun d => d.lanIp) =
      (List.range' idx cnt).map (DeviceGen._generate_lan_ip octet) ∧
    (DeviceGen.genCountedLoop nid oid loc octet now pt model name_pfx tags i cnt idx r).1.nextIndex = idx + cnt ∧
    (DeviceGen.genCountedLoop nid oid loc octet now pt model name_pfx tags i cnt idx r).1.devices.all
      (fun d => d.productType == pt) = true := by
  intro cnt
  induction cnt with
  | zero =>
    intro i idx r
    simp [DeviceGen.genCountedLoop]
  | succ n ih =>
    intro i idx r
    simp only [DeviceGen.genCountedLoop, List.map_cons, List.all_cons,
      List.range'_succ]
    refine ⟨?_, ?_, ?_⟩
    · rw [generate_device_lanIp, (ih (i + 1) (idx + 1) _).1]
    · rw [(ih (i + 1) (idx + 1) _).2.1]
      omega
    · rw [generate_device_productType]
      simp [(ih (i + 1) (idx + 1) _).2.2]

theorem genSwitchesLoop_spec (nid oid : Str) (loc : Location) (octet now : Nat) :
    ∀ (cfgs : List DeviceGen.CountCfg) (idx : Nat) (r : Rng),
    (DeviceGen.genSwitchesLoop nid oid loc octet now cfgs idx r).1.devices.map (fun d => d.lanIp) =
      (List.range' idx (countCfgTotal cfgs)).map (DeviceGen._generate_lan_ip octet) ∧
    (DeviceGen.genSwitchesLoop nid oid loc octet now cfgs idx r).1.nextIndex = idx + countCfgTotal cfgs ∧
    (DeviceGen.genSwitchesLoop nid oid loc octet now cfgs idx r).1.devices.all
      (fun d => d.productType == strL "switch") = true := by
  intro cfgs
  induction cfgs with
  | nil =>
    intro idx r
    simp [DeviceGen.genSwitchesLoop, countCfgTotal]
  | cons c cs ih =>
    intro idx r
    simp only [DeviceGen.genSwitchesLoop, List.map_append, List.all_append]
    have hct : countCfgTotal (c :: cs) = c.count.getD 1 + countCfgTotal cs := by
      simp [countCfgTotal]
    obtain ⟨g1, g2, g3⟩ := genCountedLoop_spec nid oid loc octet now
      (strL "switch") (c.model.getD (strL "MS225-48"))
      (c.name_pfx.getD (strL "SW")) c.tags (c.count.getD 1) 0 idx r
    refine ⟨?_, ?_, ?_⟩
    · rw [g1, g2, (ih (idx + c.count.getD 1) _).1, ← List.map_append,
        List.range'_append_1, hct, Nat.add_comm (countCfgTotal cs) (c.count.getD 1)]
    · rw [g2, (ih (idx + c.count.getD 1) _).2.1, hct]
      omega
    · rw [g2]
      simp [g3, (ih (idx + c.count.getD 1) _).2.2]


theorem genWirelessLoop_spec (nid oid : Str) (loc : Location) (octet now : Nat) :
    ∀ (cfgs : List DeviceGen.CountCfg) (idx : Nat) (r : Rng),
    (DeviceGen.genWirelessLoop nid oid loc octet now cfgs idx r).1.devices.map (fun d => d.lanIp) =
      (List.range' idx (countCfgTotal cfgs)).map (DeviceGen._generate_lan_ip octet) ∧
    (DeviceGen.genWirelessLoop nid oid loc octet now cfgs idx r).1.nextIndex = idx + countCfgTotal cfgs ∧
    (DeviceGen.genWirelessLoop nid oid loc octet now cfgs idx r).1.devices.all
      (fun d => d.productType == strL "wireless") = true := by
  intro cfgs
  induction cfgs with
  | nil =>
    intro idx r
    simp [DeviceGen.genWirelessLoop, countCfgTotal]
  | cons c cs ih =>
    intro idx r
    simp only [DeviceGen.genWirelessLoop, List.map_append, List.all_append]
    have hct : countCfgTotal (c :: cs) = c.count.getD 1 + countCfgTotal cs := by
      simp [countCfgTotal]
    obtain ⟨g1, g2, g3⟩ := genCountedLoop_spec nid oid loc octet now
      (strL "wireless") (c.model.getD (strL "MR46"))
      (c.name_pfx.getD (strL "AP")) c.tags (c.count.getD 1) 0 idx r
    refine ⟨?_, ?_, ?_⟩
    · rw [g1, g2, (ih (idx + c.count.getD 1) _).1, ← List.map_append,
        List.range'_append_1, hct, Nat.add_comm (countCfgTotal cs) (c.count.getD 1)]
    · rw [g2, (ih (idx + c.count.getD 1) _).2.1, hct]
      omega
    · rw [g2]
      simp [g3, (ih (idx + c.count.getD 1) _).2.2]

theorem genCellularLoop_spec (nid oid : Str) (loc : Location) (octet now : Nat) :
    ∀ (cfgs : List DeviceGen.CellCfg) (idx : Nat) (r : Rng),
    (DeviceGen.genCellularLoop nid oid loc octet now cfgs idx r).1.devices.map (fun d => d.lanIp) =
      (List.range' idx cfgs.length).map (DeviceGen._generate_lan_ip octet) ∧
    (DeviceGen.genCellularLoop nid oid loc octet now cfgs idx r).1.nextIndex = idx + cfgs.length ∧
    (DeviceGen.genCellularLoop nid oid loc octet now cfgs idx r).1.devices.all
      (fun d => d.productType == strL "cellularGateway") = true := by
  intro cfgs
  induction cfgs with
  | nil =>
    intro idx r
    simp [DeviceGen.genCellularLoop]
  | cons c cs ih =>
    intro idx r
    simp only [DeviceGen.genCellularLoop, List.map_cons, List.length_cons,
      List.all_cons, List.range'_succ]
    refine ⟨?_, ?_, ?_⟩
    · rw [generate_device_lanIp, (ih (idx + 1) _).1]
    · rw [(ih (idx + 1) _).2.1]
      omega
    · rw [generate_device_productType]
      simp [(ih (idx + 1) _).2.2]

theorem all_weaken {α : Type} {p q : α → Bool} (l : List α)
    (h : ∀ a, p a = true → q a = true) (hl : l.all p = true) :
    l.all q = true := by
  rw [List.all_eq_true] at hl ⊢
  exact fun a ha => h a (hl a ha)

theorem range'_quad (a b c d : Nat) :
    ((List.range' 0 a ++ List.range' a b) ++ List.range' (a + b) c) ++ List.range' (a + b + c) d
      = List.range' 0 (a + b + c + d) := by
  have h1 : List.range' 0 a ++ List.range' a b = List.range' 0 (a + b) := by
    conv_lhs => rw [show List.range' a b = List.range' (0 + a) b from by rw [Nat.zero_add]]
    rw [List.range'_append_1, Nat.add_comm b a]
  rw [h1]
  have h2 : List.range' 0 (a + b) ++ List.range' (a + b) c = List.range' 0 (a + b + c) := by
    conv_lhs => rw [show List.range' (a + b) c = List.range' (0 + (a + b)) c from by rw [Nat.zero_add]]
    rw [List.range'_append_1, Nat.add_comm c (a + b)]
  rw [h2]
  conv_lhs => rw [show List.range' (a + b + c) d = List.range' (0 + (a + b + c)) d from by rw [Nat.zero_add]]
  rw [List.range'_append_1, Nat.add_comm d (a + b + c)]

theorem generate_devices_for_network_spec (nid oid : Str) (loc : Location)
    (cfg : DeviceGen.DeviceConfig) (octet now : Nat) (r : Rng) :
    (DeviceGen.generate_devices_for_network nid oid loc cfg octet now r).1.1.map (fun d => d.lanIp) =
      (List.range' 0 (totalDeviceCount cfg)).map (DeviceGen._generate_lan_ip octet) ∧
    (DeviceGen.generate_devices_for_network nid oid loc cfg octet now r).1.1.all
      allowedProductType = true := by
  unfold DeviceGen.generate_devices_for_network
  dsimp only
  obtain ⟨a1, a2, a3⟩ := genAppliancesLoop_spec nid oid loc octet now cfg.appliances 0 r
  set paR := DeviceGen.genAppliancesLoop nid oid loc octet now cfg.appliances 0 r with hpa
  obtain ⟨s1, s2, s3⟩ := genSwitchesLoop_spec nid oid loc octet now cfg.switches paR.1.nextIndex paR.2
  set psR := DeviceGen.genSwitchesLoop nid oid loc octet now cfg.switches paR.1.nextIndex paR.2 with hps
  obtain ⟨w1, w2, w3⟩ := genWirelessLoop_spec nid oid loc octet now cfg.wireless psR.1.nextIndex psR.2
  set pwR := DeviceGen.genWirelessLoop nid oid loc octet now cfg.wireless psR.1.nextIndex psR.2 with hpw
  obtain ⟨c1, c2, c3⟩ := genCellularLoop_spec nid oid loc octet now cfg.cellular pwR.1.nextIndex pwR.2
  set pcR := DeviceGen.genCellularLoop nid oid loc octet now cfg.cellular pwR.1.nextIndex pwR.2 with hpc
  rw [Nat.zero_add] at a2
  rw [a2] at s1 s2
  rw [s2] at w1
  rw [s2] at w2
  rw [w2] at c1
  constructor
  · rw [List.map_append, List.map_append, List.map_append, a1, s1, w1, c1,
      ← List.map_append, ← List.map_append, ← List.map_append, range'_quad]
    have ht : cfg.appliances.length + countCfgTotal cfg.switches +
        countCfgTotal cfg.wireless + cfg.cellular.length = totalDeviceCount cfg := by
      unfold totalDeviceCount
      omega
    rw [ht]
  · rw [List.all_append, List.all_append, List.all_append]
    have ha : paR.1.devices.all allowedProductType = true :=
      all_weaken paR.1.devices (fun d hd => by simp [allowedProductType, hd]) a3
    have hs : psR.1.devices.all allowedProductType = true :=
      all_weaken psR.1.devices (fun d hd => by simp [allowedProductType, hd]) s3
    have hw : pwR.1.devices.all allowedProductType = true :=
      all_weaken pwR.1.devices (fun d hd => by simp [allowedProductType, hd]) w3
    have hc : pcR.1.devices.all allowedProductType = true :=
      all_weaken pcR.1.devices (fun d hd => by simp [allowedProductType, hd]) c3
    rw [ha, hs, hw, hc]
    rfl

theorem lan_ip_prefix_form (octet i : Nat) :
    DeviceGen._generate_lan_ip octet i =
      (strL "10." ++ natStr octet ++ ['.']) ++
        (natStr (i / 254) ++ '.' :: natStr (i % 254 + 1)) := by
  unfold DeviceGen._generate_lan_ip
  simp [List.append_assoc]

theorem lan_ip_inj {octet i j : Nat}
    (h : DeviceGen._generate_lan_ip octet i = DeviceGen._generate_lan_ip octet j) : i = j := by
  rw [lan_ip_prefix_form, lan_ip_prefix_form] at h
  have h2 := List.append_cancel_left h
  obtain ⟨hq, hr⟩ := sep_decomp (fun x hx => natStr_no_dot hx)
    (fun x hx => natStr_no_dot hx) h2
  have hq2 := natStr_inj hq
  have hr2 := natStr_inj hr
  omega

theorem lan_ip_injective (octet : Nat) :
    Function.Injective (DeviceGen._generate_lan_ip octet) := fun _ _ h => lan_ip_inj h

/-- Claim C5: in every run of DeviceGenerator.generate_devices_for_network,
the lanIp of the k-th device produced is _generate_lan_ip octet k for a
single device index running 0,1,2,... across the appliance, switch,
wireless and cellular phases (10.\x7boctet\x7d.\x7bindex//254\x7d.\x7bindex%254+1\x7d), and no
two devices of the run share a lanIp (shown here with no bound on the
count at all, which covers the claimed 254*256 bound). -/
theorem c5_lan_ip_collision_free (nid oid : Str) (loc : Location) (cfg : DeviceGen.DeviceConfig)
    (octet now : Nat) (r : Rng) :
    (DeviceGen.generate_devices_for_network nid oid loc cfg octet now r).1.1.map
        (fun d => d.lanIp) =
      (List.range' 0 (totalDeviceCount cfg)).map (DeviceGen._generate_lan_ip octet) ∧
    ((DeviceGen.generate_devices_for_network nid oid loc cfg octet now r).1.1.map
        (fun d => d.lanIp)).Nodup := by
  obtain ⟨h1, _⟩ := generate_devices_for_network_spec nid oid loc cfg octet now r
  refine ⟨h1, ?_⟩
  rw [h1]
  exact List.Nodup.map (lan_ip_injective octet) (List.nodup_range' 0 (totalDeviceCount cfg) 1 Nat.one_pos)

theorem mkSubnetStr_eq (t : Nat) :
    NetworkGen.mkSubnetStr t =
      (strL "192.168." ++ natStr t ++ strL ".0") ++ '/' :: strL "24" := by
  unfold NetworkGen.mkSubnetStr
  simp [strL, List.append_assoc]

theorem mkSubnetStr_contains_slash (t : Nat) :
    containsC (NetworkGen.mkSubnetStr t) '/' = true := by
  rw [mkSubnetStr_eq]
  unfold containsC
  simp

theorem mkSubnetStr_split (t : Nat) :
    (pySplitC '/' (NetworkGen.mkSubnetStr t)).getD 1 [] = strL "24" := by
  rw [mkSubnetStr_eq]
  rw [pySplitC_append, pySplitC_no_sep (by decide)]
  · rfl
  · intro x hx
    simp only [List.mem_append] at hx
    have h1 : ∀ y ∈ strL "192.168.", y ≠ '/' := by decide
    have h3 : ∀ y ∈ strL ".0", y ≠ '/' := by decide
    rcases hx with (hx | hx) | hx
    · exact h1 x hx
    · exact natStr_no_slash hx
    · exact h3 x hx

theorem generate_vlan_mkSubnet_ok (nid : Str) (vid : Nat) (name aip dh dns : Str)
    (t : Nat) (r : Rng) :
    ∃ v r2, NetworkGen.generate_vlan nid vid name (NetworkGen.mkSubnetStr t)
      aip dh dns r = .ok (v, r2) := by
  unfold NetworkGen.generate_vlan
  dsimp only
  rw [mkSubnetStr_contains_slash]
  simp only [if_true]
  rw [mkSubnetStr_split]
  exact ⟨_, _, rfl⟩

theorem genVlansLoop_ok (nid : Str) (base : Nat) (ts : List Str) :
    ∀ (i : Nat) (r : Rng), ∃ vs r2,
      NetworkGen.genVlansLoop nid base ts i r = .ok (vs, r2) := by
  induction ts with
  | nil => exact fun i r => ⟨[], r, rfl⟩
  | cons t ts ih =>
    intro i r
    rw [NetworkGen.genVlansLoop]
    obtain ⟨v, r2, hv⟩ := generate_vlan_mkSubnet_ok nid
      ((lookupAssoc NetworkGen.VLAN_TEMPLATES t).getD NetworkGen.corporateTemplate).id
      ((lookupAssoc NetworkGen.VLAN_TEMPLATES t).getD NetworkGen.corporateTemplate).name
      (NetworkGen.mkApplianceIpStr (base + i))
      ((lookupAssoc NetworkGen.VLAN_TEMPLATES t).getD NetworkGen.corporateTemplate).dhcpHandling
      ((lookupAssoc NetworkGen.VLAN_TEMPLATES t).getD NetworkGen.corporateTemplate).dnsNameservers
      (base + i) r
    rw [hv]
    dsimp only
    obtain ⟨vs, r3, hvs⟩ := ih (i + 1) r2
    rw [hvs]
    exact ⟨_, _, rfl⟩

theorem generate_vlans_for_network_ok (nid : Str) (ts : List Str) (base : Nat)
    (r : Rng) : ∃ vs r2,
      NetworkGen.generate_vlans_for_network nid ts base r = .ok (vs, r2) := by
  unfold NetworkGen.generate_vlans_for_network
  exact genVlansLoop_ok nid base ts 0 r

theorem hubSpokeBranch_ok (i : Nat) (bc : HubSpoke.BranchConfig) (now : Nat)
    (r : Rng) : ∃ b r2,
      HubSpoke.hubSpokeBranch i bc now r = .ok (b, r2) ∧
      b.vpnEntry.network_id = strL "N_BR" ++ pad3 (i + 1) ∧
      b.devices.all allowedProductType = true := by
  unfold HubSpoke.hubSpokeBranch
  dsimp only
  rcases generate_vlans_for_network_ok (strL "N_BR" ++ pad3 (i + 1)) _ (20 + i * 5) _
    with ⟨vs, r3, hv⟩
  rw [hv]
  dsimp only
  refine ⟨_, _, rfl, rfl, ?_⟩
  exact (generate_devices_for_network_spec _ _ _ _ _ _ _).2

theorem nbr_ne_hq (s : Str) : (strL "N_BR" ++ s) ≠ HubSpoke.hq_network_id := by
  intro h
  have h3 := congrArg (List.take 3) h
  simp [HubSpoke.hq_network_id, strL] at h3

theorem hubSpokeBranches_ok (now : Nat) (bcs : List HubSpoke.BranchConfig) :
    ∀ (i : Nat) (r : Rng), ∃ bs r2,
      HubSpoke.hubSpokeBranches now i bcs r = .ok (bs, r2) ∧
      bs.length = bcs.length ∧
      bs.all (fun b => !(b.vpnEntry.network_id == HubSpoke.hq_network_id)) = true ∧
      bs.all (fun b => b.devices.all allowedProductType) = true := by
  induction bcs with
  | nil => exact fun i r => ⟨[], r, rfl, rfl, rfl, rfl⟩
  | cons bc bcs ih =>
    intro i r
    rw [HubSpoke.hubSpokeBranches]
    obtain ⟨b, r2, hb, hid, hall⟩ := hubSpokeBranch_ok i bc now r
    rw [hb]
    dsimp only
    obtain ⟨bs, r3, hbs, hlen, hne, halls⟩ := ih (i + 1) r2
    rw [hbs]
    dsimp only
    refine ⟨_, _, rfl, by simp [hlen], ?_, ?_⟩
    · rw [List.all_cons, hne]
      have : (b.vpnEntry.network_id == HubSpoke.hq_network_id) = false := by
        rw [hid]
        exact beq_false_of_ne (nbr_ne_hq (pad3 (i + 1)))
      rw [this]
      rfl
    · rw [List.all_cons, halls, hall]
      rfl

theorem filter_map_nil {α β : Type} (f : α → β) (p : β → Bool) (l : List α)
    (h : ∀ a ∈ l, p (f a) = false) : (l.map f).filter p = [] := by
  induction l with
  | nil => rfl
  | cons x xs ih =>
    rw [List.map_cons, List.filter_cons, h x (by simp)]
    exact ih (fun a ha => h a (by simp [ha]))

theorem all_flatten {α : Type} (p : α → Bool) (ls : List (List α))
    (h : ls.all (fun l => l.all p) = true) : ls.flatten.all p = true := by
  induction ls with
  | nil => rfl
  | cons x xs ih =>
    rw [List.all_cons] at h
    rw [List.flatten_cons, List.all_append]
    simp only [Bool.and_eq_true] at h
    rw [h.1, ih h.2]
    rfl

theorem hubSpoke_master (r : Rng) (now : Nat) : ∃ t r2,
    HubSpoke.generate_hub_spoke_topology r now = .ok (t, r2) ∧
    t.stats.organizations = 1 ∧
    t.stats.networks = 21 ∧
    (t.vpn_configs.filter (fun e => e.network_id == HubSpoke.hq_network_id)).map
      (fun e => (e.config.mode, e.config.hubs)) = [(strL "hub", ([] : List HubRef))] ∧
    t.devices.all allowedProductType = true := by
  unfold HubSpoke.generate_hub_spoke_topology
  dsimp only
  rcases generate_vlans_for_network_ok HubSpoke.hq_network_id _ 10 _ with ⟨hqv, rA, hhv⟩
  rw [hhv]
  dsimp only
  obtain ⟨bundles, rB, hbs, hlen, hne, halls⟩ :=
    hubSpokeBranches_ok now HubSpoke.branch_configs 0
      ((ClientGen.generate_clients_for_network HubSpoke.hq_network_id hqv 200
        (DeviceGen.generate_devices_for_network HubSpoke.hq_network_id HubSpoke.org_id
          (DeviceGen.US_LOCATIONS.getD 0 DeviceGen.dfltLocation) HubSpoke.hq_device_config 10 now
          (NetworkGen.generate_organization HubSpoke.org_id (strL "Acme Corporation")
            (strL "North America") r).2).1.1
        HubSpoke.hq_required_clients now rA).2)
  rw [hbs]
  dsimp only
  refine ⟨_, _, rfl, rfl, ?_, ?_, ?_⟩
  · dsimp only [HubSpoke.hubSpokeAssemble]
    rw [List.length_cons, List.length_map, hlen]
    rfl
  · dsimp only [HubSpoke.hubSpokeAssemble]
    rw [List.filter_cons]
    have hself : (HubSpoke.hq_network_id == HubSpoke.hq_network_id) = true := by
      simp
    simp only [hself, if_true]
    rw [filter_map_nil _ _ bundles ?hfm]
    case hfm =>
      intro b hb
      have := (List.all_eq_true.mp hne) b hb
      simp only [Bool.not_eq_eq_eq_not, Bool.not_true] at this
      exact this
    rfl
  · dsimp only [HubSpoke.hubSpokeAssemble]
    rw [List.all_append]
    rw [(generate_devices_for_network_spec HubSpoke.hq_network_id HubSpoke.org_id
      (DeviceGen.US_LOCATIONS.getD 0 DeviceGen.dfltLocation) HubSpoke.hq_device_config 10 now
      (NetworkGen.generate_organization HubSpoke.org_id (strL "Acme Corporation")
        (strL "North America") r).2).2]
    rw [Bool.true_and]
    refine all_flatten allowedProductType _ ?_
    rw [List.all_eq_true] at halls ⊢
    intro l hl
    rw [List.mem_map] at hl
    obtain ⟨b, hb, rfl⟩ := hl
    exact halls b hb

/-- Claim C4: for every pseudo-random stream (hence for seed 42) and every
utcnow value, generate_hub_spoke_topology returns a topology whose stats
report 1 organization and 21 networks (1 hub + 20 branches), and whose
vpn_configs entry for the hub network N_HQ001 has mode hub and an empty
hubs list. -/
theorem c4_hub_spoke_stats_and_hub_vpn (r : Rng) (now : Nat) : ∃ t r2,
    HubSpoke.generate_hub_spoke_topology r now = .ok (t, r2) ∧
    t.stats.organizations = 1 ∧ t.stats.networks = 21 ∧
    (t.vpn_configs.filter (fun e => e.network_id == HubSpoke.hq_network_id)).map
      (fun e => (e.config.mode, e.config.hubs)) = [(strL "hub", ([] : List HubRef))] := by
  obtain ⟨t, r2, h1, h2, h3, h4, _⟩ := hubSpoke_master r now
  exact ⟨t, r2, h1, h2, h3, h4⟩

/-- Claim C10: generate_devices_for_network reads only the appliances,
switches, wireless and cellular keys of its config — changing the cameras
and sensors entries changes nothing — and consequently every device of
the hub-spoke topology (whose assembler passes cameras and sensors) has
one of the four generated productTypes, never camera or sensor. -/
theorem c10_cameras_sensors_ignored :
    (∀ (nid oid : Str) (loc : Location) (cfg : DeviceGen.DeviceConfig)
        (cams sens : List DeviceGen.CountCfg) (octet now : Nat) (r : Rng),
      DeviceGen.generate_devices_for_network nid oid loc
        {cfg with cameras := cams, sensors := sens} octet now r =
      DeviceGen.generate_devices_for_network nid oid loc cfg octet now r) ∧
    (∀ (r : Rng) (now : Nat), ∃ t r2,
      HubSpoke.generate_hub_spoke_topology r now = .ok (t, r2) ∧
      t.devices.all (fun d => !(d.productType == strL "camera") &&
        !(d.productType == strL "sensor")) = true) := by
  constructor
  · intro nid oid loc cfg cams sens octet now r
    rfl
  · intro r now
    obtain ⟨t, r2, h1, _, _, _, h5⟩ := hubSpoke_master r now
    refine ⟨t, r2, h1, ?_⟩
    refine all_weaken t.devices ?_ h5
    intro d hd
    simp only [allowedProductType, Bool.or_eq_true, beq_iff_eq] at hd
    rcases hd with ((h | h) | h) | h <;> rw [h] <;> decide

set_option maxHeartbeats 4000000 in
theorem genClientSel_excl (nc : NetClient)
    (hostname device_prediction vlan_name : Str)
    (switches access_points : List Device) (has_switches has_aps : Bool)
    (client_id network_id vlan_id : Str) (i : Nat) (vlan_subnet : Str)
    (now : Nat) (w : Bool) (r : Rng) :
    (!(((ClientGen.genClientSel nc hostname device_prediction vlan_name
          switches access_points has_switches has_aps client_id network_id
          vlan_id i vlan_subnet now w r).1.1).base.switchport.isSome &&
       ((ClientGen.genClientSel nc hostname device_prediction vlan_name
          switches access_points has_switches has_aps client_id network_id
          vlan_id i vlan_subnet now w r).1.1).base.ssid.isSome)) = true := by
  unfold ClientGen.genClientSel
  dsimp only
  repeat' split
  all_goals rfl

theorem genClientConn_excl (nc : NetClient) (vlan_name : Str)
    (switches access_points : List Device) (has_switches has_aps : Bool)
    (client_id network_id vlan_id : Str) (i : Nat) (vlan_subnet : Str)
    (now : Nat) (r : Rng) :
    (!(((ClientGen.genClientConn nc vlan_name switches access_points
          has_switches has_aps client_id network_id vlan_id i vlan_subnet now
          r).1.1).base.switchport.isSome &&
       ((ClientGen.genClientConn nc vlan_name switches access_points
          has_switches has_aps client_id network_id vlan_id i vlan_subnet now
          r).1.1).base.ssid.isSome)) = true := by
  unfold ClientGen.genClientConn
  dsimp only
  exact genClientSel_excl _ _ _ _ _ _ _ _ _ _ _ _ _ _ _ _

theorem genOneClient_excl (network_id : Str) (vlans : List Vlan)
    (switches access_points : List Device) (has_switches has_aps : Bool)
    (required_mfrs : List Str) (now : Nat) (i : Nat) (r : Rng) :
    (!(((ClientGen.genOneClient network_id vlans switches access_points
          has_switches has_aps required_mfrs now i r).1.1).base.switchport.isSome &&
       ((ClientGen.genOneClient network_id vlans switches access_points
          has_switches has_aps required_mfrs now i r).1.1).base.ssid.isSome)) = true := by
  unfold ClientGen.genOneClient
  dsimp only
  exact genClientConn_excl _ _ _ _ _ _ _ _ _ _ _ _ _

theorem genClientsLoop_excl (network_id : Str) (vlans : List Vlan)
    (switches access_points : List Device) (has_switches has_aps : Bool)
    (required_mfrs : List Str) (now : Nat) :
    ∀ (todo i : Nat) (m : ClientGen.DevMap) (r : Rng),
      ((ClientGen.genClientsLoop network_id vlans switches access_points
          has_switches has_aps required_mfrs now i todo m r).1.1.all
        (fun c => !(c.base.switchport.isSome && c.base.ssid.isSome))) = true := by
  intro todo
  induction todo with
  | zero => intro i m r; rfl
  | succ todo ih =>
    intro i m r
    rw [ClientGen.genClientsLoop]
    dsimp only
    rw [List.all_cons, genOneClient_excl, ih]
    rfl

/-- Claim C3: no client record returned by generate_clients_for_network,
for any inputs and any device inventory, carries both a non-null
switchport and a non-null ssid. -/
theorem c3_switchport_ssid_never_both (network_id : Str) (vlans : List Vlan) (count : Nat)
    (devices : List Device) (required : List Str) (now : Nat) (r : Rng) :
    ((ClientGen.generate_clients_for_network network_id vlans count devices
        required now r).1.1.all
      (fun c => !(c.base.switchport.isSome && c.base.ssid.isSome))) = true := by
  unfold ClientGen.generate_clients_for_network
  dsimp only
  exact genClientsLoop_excl _ _ _ _ _ _ _ _ _ _ _ _

theorem choiceD_mem {α : Type} {l : List α} (d : α) (r : Rng) (h : l ≠ []) :
    (choiceD l d r).1 ∈ l := by
  unfold choiceD
  dsimp only
  have hl : 0 < l.length := List.length_pos.mpr h
  have hm : (drawN r).1 % l.length < l.length := Nat.mod_lt _ hl
  rw [List.getD_eq_getElem?_getD, List.getElem?_eq_getElem hm]
  exact List.getElem_mem hm

theorem mkSubnetStr_base (t : Nat) :
    NetworkGen.mkSubnetStr t =
      (strL "192.168." ++ natStr t) ++ strL ".0/24" := by
  unfold NetworkGen.mkSubnetStr
  simp [strL, List.append_assoc]

theorem mkSubnetStr_not_empty (t : Nat) :
    (NetworkGen.mkSubnetStr t).isEmpty = false := rfl

theorem ip_from_mkSubnet (t i : Nat) :
    ClientGen._generate_ip_from_subnet (NetworkGen.mkSubnetStr t) i =
      (strL "192.168." ++ natStr t) ++ '.' :: natStr (i % 250 + 2) := by
  unfold ClientGen._generate_ip_from_subnet
  rw [mkSubnetStr_eq, pySplitC_append ?hns]
  case hns =>
    intro x hx
    simp only [List.mem_append] at hx
    have h1 : ∀ y ∈ strL "192.168.", y ≠ '/' := by decide
    have h3 : ∀ y ∈ strL ".0", y ≠ '/' := by decide
    rcases hx with (hx | hx) | hx
    · exact h1 x hx
    · exact natStr_no_slash hx
    · exact h3 x hx
  rw [List.headD_cons]
  rw [show strL "192.168." ++ natStr t ++ strL ".0" =
    (strL "192.168." ++ natStr t) ++ '.' :: strL "0" from by
      simp [strL, List.append_assoc]]
  rw [pyRSplitHead_append (by decide)]

theorem finishClient_ip_vlan (c : Client) (r : Rng) :
    (ClientGen.finishClient c r).1.ip = c.ip ∧
    (ClientGen.finishClient c r).1.vlan = c.vlan := by
  unfold ClientGen.finishClient
  dsimp only
  constructor
  · split <;> rfl
  · split <;> rfl

set_option maxHeartbeats 2000000 in
theorem generate_client_ip_vlan (cid nid vid : Str) (i : Nat)
    (ser : Option Str) (s : Str) (fm : Option Manufacturer)
    (now : Nat) (r : Rng) :
    (ClientGen.generate_client cid nid vid i ser (some s) fm now r).1.ip =
      (if s.isEmpty then strL "192.168." ++ vid ++ '.' :: natStr ((i % 250) + 2)
       else ClientGen._generate_ip_from_subnet s i) ∧
    (ClientGen.generate_client cid nid vid i ser (some s) fm now r).1.vlan = vid := by
  unfold ClientGen.generate_client
  dsimp only
  constructor
  · rw [(finishClient_ip_vlan _ _).1]
  · rw [(finishClient_ip_vlan _ _).2]

theorem generate_network_client_ip_vlan (cid nid vid : Str) (i : Nat) (s : Str)
    (fm : Option Manufacturer) (now : Nat) (r : Rng) :
    (ClientGen.generate_network_client cid nid vid i (some s) fm now r).1.base.ip =
      (if s.isEmpty then strL "192.168." ++ vid ++ '.' :: natStr ((i % 250) + 2)
       else ClientGen._generate_ip_from_subnet s i) ∧
    (ClientGen.generate_network_client cid nid vid i (some s) fm now r).1.base.vlan = vid := by
  unfold ClientGen.generate_network_client
  dsimp only
  exact generate_client_ip_vlan cid nid vid i none s fm now r

set_option maxHeartbeats 4000000 in
theorem genClientSel_ip_vlan (nc : NetClient)
    (hostname device_prediction vlan_name : Str)
    (switches access_points : List Device) (has_switches has_aps : Bool)
    (client_id network_id vlan_id : Str) (i : Nat) (vlan_subnet : Str)
    (now : Nat) (w : Bool) (r : Rng) :
    ((ClientGen.genClientSel nc hostname device_prediction vlan_name
        switches access_points has_switches has_aps client_id network_id
        vlan_id i vlan_subnet now w r).1.1).base.ip = nc.base.ip ∧
    ((ClientGen.genClientSel nc hostname device_prediction vlan_name
        switches access_points has_switches has_aps client_id network_id
        vlan_id i vlan_subnet now w r).1.1).base.vlan = nc.base.vlan := by
  unfold ClientGen.genClientSel
  dsimp only
  constructor
  · repeat' split
    all_goals rfl
  · repeat' split
    all_goals rfl

theorem genClientConn_ip_vlan (nc : NetClient) (vlan_name : Str)
    (switches access_points : List Device) (has_switches has_aps : Bool)
    (client_id network_id vlan_id : Str) (i : Nat) (vlan_subnet : Str)
    (now : Nat) (r : Rng) :
    ((ClientGen.genClientConn nc vlan_name switches access_points
        has_switches has_aps client_id network_id vlan_id i vlan_subnet now
        r).1.1).base.ip = nc.base.ip ∧
    ((ClientGen.genClientConn nc vlan_name switches access_points
        has_switches has_aps client_id network_id vlan_id i vlan_subnet now
        r).1.1).base.vlan = nc.base.vlan := by
  unfold ClientGen.genClientConn
  dsimp only
  exact genClientSel_ip_vlan _ _ _ _ _ _ _ _ _ _ _ _ _ _ _ _

set_option maxHeartbeats 4000000 in
theorem genOneClient_ip_vlan (network_id : Str) (vlans : List Vlan)
    (switches access_points : List Device) (has_switches has_aps : Bool)
    (required_mfrs : List Str) (now : Nat) (i : Nat) (r : Rng)
    (hne : vlans ≠ [])
    (h24 : ∀ v ∈ vlans, ∃ t, v.subnet = NetworkGen.mkSubnetStr t) :
    ∃ v ∈ vlans,
      ((ClientGen.genOneClient network_id vlans switches access_points
          has_switches has_aps required_mfrs now i r).1.1).base.vlan = v.id ∧
      Mem24 ((ClientGen.genOneClient network_id vlans switches access_points
          has_switches has_aps required_mfrs now i r).1.1).base.ip v.subnet := by
  have hie : vlans.isEmpty = false := by
    simp [List.isEmpty_iff, hne]
  unfold ClientGen.genOneClient
  dsimp only
  simp only [hie, Bool.false_eq_true, if_false]
  have hmem : (choiceD vlans ClientGen.fallbackVlan r).1 ∈ vlans :=
    choiceD_mem _ _ hne
  obtain ⟨t, ht⟩ := h24 _ hmem
  refine ⟨(choiceD vlans ClientGen.fallbackVlan r).1, hmem, ?_, ?_⟩
  · rw [(genClientConn_ip_vlan _ _ _ _ _ _ _ _ _ _ _ _ _).2]
    dsimp only
    rw [(generate_network_client_ip_vlan _ _ _ _ _ _ _ _).2]
  · rw [(genClientConn_ip_vlan _ _ _ _ _ _ _ _ _ _ _ _ _).1]
    dsimp only
    rw [(generate_network_client_ip_vlan _ _ _ _ _ _ _ _).1]
    rw [ht, mkSubnetStr_not_empty]
    simp only [Bool.false_eq_true, if_false]
    rw [ip_from_mkSubnet]
    exact ⟨strL "192.168." ++ natStr t, i % 250 + 2, by omega,
      mkSubnetStr_base t, rfl⟩

theorem genClientsLoop_ip_vlan (network_id : Str) (vlans : List Vlan)
    (switches access_points : List Device) (has_switches has_aps : Bool)
    (required_mfrs : List Str) (now : Nat)
    (hne : vlans ≠ [])
    (h24 : ∀ v ∈ vlans, ∃ t, v.subnet = NetworkGen.mkSubnetStr t) :
    ∀ (todo i : Nat) (m : ClientGen.DevMap) (r : Rng),
      ∀ c ∈ (ClientGen.genClientsLoop network_id vlans switches access_points
          has_switches has_aps required_mfrs now i todo m r).1.1,
        ∃ v ∈ vlans, c.base.vlan = v.id ∧ Mem24 c.base.ip v.subnet := by
  intro todo
  induction todo with
  | zero => intro i m r c hc; simp [ClientGen.genClientsLoop] at hc
  | succ todo ih =>
    intro i m r c hc
    rw [ClientGen.genClientsLoop] at hc
    dsimp only at hc
    rw [List.mem_cons] at hc
    rcases hc with rfl | hc
    · exact genOneClient_ip_vlan network_id vlans switches access_points
        has_switches has_aps required_mfrs now i r hne h24
    · exact ih _ _ _ c hc

/-- Claim C2: for every call to generate_clients_for_network with a
non-empty vlans list in which every VLAN carries a /24 CIDR subnet string
of the shape the topology assemblers supply (192.168.t.0/24), every
network-level client's ip lies in the /24 block of the VLAN named by the
client's vlan field. -/
theorem c2_client_ip_within_vlan_subnet (network_id : Str) (vlans : List Vlan) (count : Nat)
    (devices : List Device) (required : List Str) (now : Nat) (r : Rng)
    (hne : vlans ≠ [])
    (h24 : ∀ v ∈ vlans, ∃ t, v.subnet = NetworkGen.mkSubnetStr t) :
    ∀ c ∈ (ClientGen.generate_clients_for_network network_id vlans count
        devices required now r).1.1,
      ∃ v ∈ vlans, c.base.vlan = v.id ∧ Mem24 c.base.ip v.subnet := by
  unfold ClientGen.generate_clients_for_network
  dsimp only
  exact genClientsLoop_ip_vlan network_id vlans _ _ _ _ required now hne h24
    count 0 _ r

/-- Claim C2 witness: a concrete run with one VLAN whose subnet is
192.168.5.0/24, discharging both hypotheses of the theorem. -/
theorem c2_client_ip_witness :
    ([c2VlanW] ≠ []) ∧
    ∀ c ∈ (ClientGen.generate_clients_for_network [] [c2VlanW] 1 [] [] 0
        []).1.1,
      ∃ v ∈ [c2VlanW], c.base.vlan = v.id ∧ Mem24 c.base.ip v.subnet :=
  ⟨List.cons_ne_nil _ _,
   c2_client_ip_within_vlan_subnet [] [c2VlanW] 1 [] [] 0 [] (List.cons_ne_nil _ _)
     (fun v hv => ⟨5, by rw [List.mem_singleton] at hv; rw [hv]; rfl⟩)⟩

/-! ### Error propagation in the raising assemblers -/

theorem meshDc_error (i : Nat) (dc : Mesh.DcConfig) (now : Nat) (r : Rng) :
    Mesh.meshDc i dc now r = .error unpackValueError := by
  simp [Mesh.meshDc, unpack2of3, unpackValueError]

theorem meshDcLoop_error (now i : Nat) (dc : Mesh.DcConfig)
    (dcs : List Mesh.DcConfig) (r : Rng) :
    Mesh.meshDcLoop now i (dc :: dcs) r = .error unpackValueError := by
  simp [Mesh.meshDcLoop, meshDc_error]

theorem meshDcLoop_error_full (now : Nat) (r : Rng) :
    Mesh.meshDcLoop now 0 Mesh.DC_CONFIGS r = .error unpackValueError := by
  rw [show Mesh.DC_CONFIGS = Mesh.DC_CONFIGS.headD Mesh.dfltDc ::
    Mesh.DC_CONFIGS.tail from rfl]
  exact meshDcLoop_error now 0 _ _ r

theorem mesh_error (r : Rng) (now : Nat) :
    Mesh.generate_mesh_topology r now = .error unpackValueError := by
  delta Mesh.generate_mesh_topology
  simp only [meshDcLoop_error_full]

theorem multiOrgNetwork_error (oc : MultiOrg.OrgCfg) (nc : MultiOrg.NetCfg)
    (counter now : Nat) (r : Rng) :
    MultiOrg.multiOrgNetwork oc nc counter now r = .error unpackValueError := by
  simp [MultiOrg.multiOrgNetwork, unpack2of3, unpackValueError]

theorem multiOrgNetworksLoop_error (oc : MultiOrg.OrgCfg) (now : Nat)
    (nc : MultiOrg.NetCfg) (ncs : List MultiOrg.NetCfg) (counter : Nat)
    (r : Rng) :
    MultiOrg.multiOrgNetworksLoop oc now (nc :: ncs) counter r =
      .error unpackValueError := by
  simp [MultiOrg.multiOrgNetworksLoop, multiOrgNetwork_error]

theorem multiOrgLoop_error (now : Nat) (oc : MultiOrg.OrgCfg)
    (ocs : List MultiOrg.OrgCfg) (counter : Nat) (vlansAcc : List Vlan)
    (r : Rng) (h : oc.networks ≠ []) :
    MultiOrg.multiOrgLoop now (oc :: ocs) counter vlansAcc r =
      .error unpackValueError := by
  rw [MultiOrg.multiOrgLoop]
  obtain ⟨nc, ncs, hn⟩ : ∃ nc ncs, oc.networks = nc :: ncs := by
    cases hx : oc.networks with
    | nil => exact absurd hx h
    | cons a l => exact ⟨a, l, rfl⟩
  simp [hn, multiOrgNetworksLoop_error]

theorem multiOrgLoop_error_full (now : Nat) (r : Rng) :
    MultiOrg.multiOrgLoop now MultiOrg.ORG_CONFIGS 0 [] r =
      .error unpackValueError := by
  rw [show MultiOrg.ORG_CONFIGS = MultiOrg.ORG_CONFIGS.headD
    ⟨[], [], [], []⟩ :: MultiOrg.ORG_CONFIGS.tail from rfl]
  exact multiOrgLoop_error now _ _ 0 [] r (by decide)

theorem multi_org_error (r : Rng) (now : Nat) :
    MultiOrg.generate_multi_org_topology r now = .error unpackValueError := by
  delta MultiOrg.generate_multi_org_topology
  simp only [multiOrgLoop_error_full]

/-! ### Claims -/

/-- Claim C8: for every seed (every pseudo-random stream) and every
utcnow value, both generate_mesh_topology and generate_multi_org_topology
raise before returning: each unpacks the 3-tuple returned by
DeviceGenerator.generate_devices_for_network (devices, availabilities,
statuses) into two variables, a ValueError. -/
theorem c8_mesh_and_multi_org_always_raise (r : Rng) (now : Nat) :
    exceptIsOk (Mesh.generate_mesh_topology r now) = false ∧
    exceptIsOk (MultiOrg.generate_multi_org_topology r now) = false := by
  rw [mesh_error, multi_org_error]
  exact ⟨rfl, rfl⟩

/-- Claim C7 counterexample: at the concrete input (the empty stream,
utcnow 0), generate_mesh_topology raises instead of returning a topology,
so no returned mesh topology carries the claimed VPN structure. -/
theorem c7_counterexample_mesh_never_returns :
    exceptIsOk (Mesh.generate_mesh_topology [] 0) = false := by
  rw [mesh_error]
  rfl

/-- Claim C7 (amended): the VPN-config phase of mesh.py, applied to the
network ids the DC loop would assign, gives every primary-tier site mode
hub, and every secondary- and edge-tier site mode spoke with hubs
referencing both primary sites N_DC001 and N_DC002 — but
generate_mesh_topology itself raises before reaching this phase, for
every seed. -/
theorem c7_mesh_vpn_tier_structure (vlans : List Vlan) :
    (Mesh.meshVpnPhaseFor Mesh.meshNetworkIds vlans).map
      (fun e => (e.network_id, e.config.mode, e.config.hubs.map (fun h => h.hubId))) =
    [(strL "N_DC001", strL "hub", []),
     (strL "N_DC002", strL "hub", []),
     (strL "N_DC003", strL "spoke", [strL "N_DC001", strL "N_DC002"]),
     (strL "N_DC004", strL "spoke", [strL "N_DC001", strL "N_DC002"]),
     (strL "N_DC005", strL "spoke", [strL "N_DC001", strL "N_DC002"]),
     (strL "N_DC006", strL "spoke", [strL "N_DC001", strL "N_DC002"]),
     (strL "N_DC007", strL "spoke", [strL "N_DC001", strL "N_DC002"]),
     (strL "N_DC008", strL "spoke", [strL "N_DC001", strL "N_DC002"])] := by
  rfl

/-- Claim C9: generate_vlan on a subnet string with no slash does not
raise and produces a VLAN whose mask field is 24. -/
theorem c9_generate_vlan_no_slash_mask_24 (network_id : Str) (vlan_id : Nat)
    (name subnet appliance_ip dhcp_handling dns_nameservers : Str) (r : Rng)
    (h : containsC subnet '/' = false) :
    ∃ v r', NetworkGen.generate_vlan network_id vlan_id name subnet
      appliance_ip dhcp_handling dns_nameservers r = .ok (v, r') ∧
      v.mask = 24 := by
  unfold NetworkGen.generate_vlan
  simp only [h, Bool.false_eq_true, if_false]
  exact ⟨_, _, rfl, rfl⟩

/-- Claim C1 (code-bug evaluation): generate_client and generate_device
derive firstSeen/lastSeen and configurationUpdatedAt from
datetime.utcnow(), so two runs with the same seed (the same pseudo-random
stream, here the all-zero stream) at wall-clock times 60 seconds or one
hour apart produce different records, contradicting the documented
byte-identical determinism contract. -/
theorem c1_output_depends_on_wall_clock :
    (ClientGen.generate_client (strL "k123456") (strL "N_HQ001") (strL "10") 0
      none (some (strL "192.168.10.0/24")) none 1700000000 []).1.lastSeen ≠
    (ClientGen.generate_client (strL "k123456") (strL "N_HQ001") (strL "10") 0
      none (some (strL "192.168.10.0/24")) none 1700000060 []).1.lastSeen ∧
    (DeviceGen.generate_device (strL "N_HQ001") (strL "883652")
      (strL "switch") (strL "MS225-48") (strL "SW-01")
      (DeviceGen.US_LOCATIONS.getD 0 DeviceGen.dfltLocation) 10 0 []
      1700000000 []).1.configurationUpdatedAt ≠
    (DeviceGen.generate_device (strL "N_HQ001") (strL "883652")
      (strL "switch") (strL "MS225-48") (strL "SW-01")
      (DeviceGen.US_LOCATIONS.getD 0 DeviceGen.dfltLocation) 10 0 []
      1700003600 []).1.configurationUpdatedAt := by
  exact ⟨by decide, by decide⟩

/-- Claim C6 (amended): generate_device_client reports usage in different
units by integer-dividing by 1000 the usage of the base client it
generates internally with fresh draws from the stream — not the usage of
the separately generated network-level record. -/
theorem c6_device_client_usage_division (client_id network_id vlan_id : Str)
    (client_index : Nat) (device_serial : Str) (vlan_subnet : Option Str)
    (now : Nat) (r : Rng) :
    (ClientGen.generate_device_client client_id network_id vlan_id
      client_index device_serial vlan_subnet now r).1.usage.sent =
      (ClientGen.generate_client client_id network_id vlan_id client_index
        (some device_serial) vlan_subnet none now r).1.usage.sent / 1000 ∧
    (ClientGen.generate_device_client client_id network_id vlan_id
      client_index device_serial vlan_subnet now r).1.usage.recv =
      (ClientGen.generate_client client_id network_id vlan_id client_index
        (some device_serial) vlan_subnet none now r).1.usage.recv / 1000 :=
  ⟨rfl, rfl⟩

set_option maxRecDepth 40000 in
/-- Claim C6 counterexample: in a run of generate_clients_for_network at
a concrete stream, the single client is assigned the switch, the
network-level record has usage.sent 1000000, and the device-level record
has usage.sent 1500 (its own fresh draw divided by 1000), not
1000000 // 1000 = 1000. -/
theorem c6_counterexample_not_derived_from_network_record :
    (ClientGen.generate_clients_for_network (strL "N1") [c6Vlan] 1 [c6Switch]
      [] 1700000000 (List.replicate 41 0 ++ [500000])).1.1.map
        (fun nc => nc.base.usage.sent) = [1000000] ∧
    (ClientGen.generate_clients_for_network (strL "N1") [c6Vlan] 1 [c6Switch]
      [] 1700000000 (List.replicate 41 0 ++ [500000])).1.2.map
        (fun e => e.2.map (fun dc => dc.usage.sent)) = [[1500]] ∧
    ¬ (1500 = 1000000 / 1000) := by
  refine ⟨by decide, by decide, by decide⟩

/-- Claim C9 witness: the concrete malformed subnet 10.0.0.0 (no prefix
length) is accepted with mask 24. -/
theorem c9_witness :
    containsC (strL "10.0.0.0") '/' = false ∧
    ∃ v r', NetworkGen.generate_vlan (strL "N1") 10 (strL "Corporate")
      (strL "10.0.0.0") (strL "10.0.0.1") (strL "Run a DHCP server")
      (strL "upstream_dns") [] = .ok (v, r') ∧ v.mask = 24 :=
  ⟨by decide,
   c9_generate_vlan_no_slash_mask_24 (strL "N1") 10 (strL "Corporate")
     (strL "10.0.0.0") (strL "10.0.0.1") (strL "Run a DHCP server")
     (strL "upstream_dns") [] (by decide)⟩

end MockMeraki
